import Mathlib

/-!
# Quant_System — verification of the spec against the source

Shallow embedding of the parts of the `Quant_System` repository that the
claims C1–C10 are about, together with theorems settling each claim.

Conventions used throughout:

* Python `float` arithmetic is modelled by exact rational arithmetic on `ℚ`.
  Decimal literals in the source (`0.30`, `0.05`, `1e-6`, ...) are mapped to
  the corresponding decimal rationals.  The one place where the *binary*
  value of a double matters — the money-comparator examples of claim C9,
  whose whole point is IEEE-754 rounding noise — uses the exact dyadic
  rationals of the IEEE-754 doubles involved (e.g. the double nearest to
  `0.1` is `3602879701896397 / 2^55`); those constants are spelled out below.
* `NaN` / missing values are modelled by `Option ℚ` (`none` = absent/NaN),
  matching the `pd.isna` / `fillna` discipline of the source.
* pandas `DataFrame`s are modelled as `List`s of per-row structures, aligned
  positionally (the source aligns `model_ens` with the candidate frame "by
  index order").
* String formatting of diagnostic messages (f-string interpolation of
  numbers and paths) is not reproduced; reasons keep their constant prefix
  text, which is all the claims depend on.
-/

namespace QuantSys

/-- Python's builtin `max` on two rationals (spelled out by `if` so that
`decide` evaluates it). -/
def qmax (a b : ℚ) : ℚ := if a ≤ b then b else a

/-- Python's builtin `min` on two rationals. -/
def qmin (a b : ℚ) : ℚ := if b ≤ a then b else a

/-- Python's `abs` on rationals. -/
def qabs (x : ℚ) : ℚ := if x < 0 then -x else x

theorem qmax_eq_max (a b : ℚ) : qmax a b = max a b := by
  rw [qmax, max_def]

theorem qmin_eq_min (a b : ℚ) : qmin a b = min a b := by
  unfold qmin
  rcases le_total a b with h | h
  · by_cases h2 : b ≤ a
    · simp [h2, min_eq_left h, le_antisymm h2 h]
    · simp [h2, min_eq_left h]
  · simp [h, min_eq_right h]

theorem qabs_eq_abs (x : ℚ) : qabs x = |x| := by
  rcases lt_or_le x 0 with h | h
  · simp [qabs, h, abs_of_neg h]
  · simp [qabs, not_lt.mpr h, abs_of_nonneg h]

/-- Embedding of `_clamp` from `src/engine/models/dual_head.py`: `max(lo, min(hi, x))`. -/
def clamp (x lo hi : ℚ) : ℚ := qmax lo (qmin hi x)

/-- Python `str.startswith`, modelled on character lists (Lean's built-in
`String.startsWith` works on byte positions and does not evaluate inside
the kernel). -/
def strStartsWith (s p : String) : Bool := p.toList.isPrefixOf s.toList

/-- Python `str.upper` (ASCII, as the instrument codes are ASCII). -/
def strToUpper (s : String) : String := String.mk (s.toList.map Char.toUpper)

/-- Python `str.endswith`, modelled on character lists. -/
def strEndsWith (s p : String) : Bool := p.toList.isSuffixOf s.toList

/-- The whitespace characters Python's `str.strip` removes (the ones that
occur in this pipeline's data). -/
def wsChar (c : Char) : Bool := c = ' ' ∨ c = '\t' ∨ c = '\n' ∨ c = '\r'

/-- Python `str.strip`, modelled on character lists. -/
def strTrim (s : String) : String :=
  String.mk (((s.toList.dropWhile wsChar).reverse.dropWhile wsChar).reverse)

/-- Python's `math.isclose(a, b, rel_tol, abs_tol)`:
`|a-b| ≤ max(rel_tol*max(|a|,|b|), abs_tol)`, on exact rationals. -/
def isclose (a b rel_tol abs_tol : ℚ) : Bool :=
  qabs (a - b) ≤ qmax (rel_tol * qmax (qabs a) (qabs b)) abs_tol

/-- Embedding of `isclose_money` from `src/utils/float_cmp.py` (same formula as the copy in
`src/engine/gates.py`): `math.isclose` with default `rel_tol = 1e-6`,
`abs_tol = 0.01`. -/
def isclose_money (a b rel_tol abs_tol : ℚ) : Bool :=
  isclose a b rel_tol abs_tol

/-- Default `rel_tol` of `isclose_money`. -/
def moneyRelTol : ℚ := 1 / 1000000

/-- Default `abs_tol` of `isclose_money`. -/
def moneyAbsTol : ℚ := 1 / 100

/-- The IEEE-754 double written `99.999999` (exact dyadic value). -/
def fp99_999999 : ℚ := 879609293424707 / 8796093022208

/-- The IEEE-754 double written `99.98` (exact dyadic value). -/
def fp99_98 : ℚ := 7035467042882847 / 70368744177664

/-- The IEEE-754 double sum `0.1 + 0.2` (exact dyadic value,
`0.30000000000000004...`). -/
def fpSum01_02 : ℚ := 1351079888211149 / 4503599627370496

/-- The IEEE-754 double written `0.3` (exact dyadic value,
`0.29999999999999998...`). -/
def fp0_3 : ℚ := 5404319552844595 / 18014398509481984

/-- Configuration of `asset_check` (`cfg["asset_check"]` in
`src/engine/gates.py`; defaults `enabled=True`, `max_total_asset_dev=0.05`,
`abs_tol=0.01`, `rel_tol=1e-6`). -/
structure AssetCheckCfg where
  enabled : Bool
  max_total_asset_dev : ℚ
  abs_tol : ℚ
  rel_tol : ℚ
deriving DecidableEq

/-- The default `asset_check` configuration. -/
def defaultAssetCheckCfg : AssetCheckCfg :=
  { enabled := true
    max_total_asset_dev := 5 / 100
    abs_tol := 1 / 100
    rel_tol := 1 / 1000000 }

/-- Embedding of `asset_check` from `src/engine/gates.py`.  `expected = none` models a
`None`/non-finite expected figure.  Returns `(ok, dev_ratio)`; the formatted
detail string is omitted (no claim depends on it).  The source computes
`dev_ratio = 0.0 if expected == 0 else (real - expected) / expected`; on `ℚ`
division by zero yields `0`, which coincides with that sentinel, but the
branch is kept to mirror the source. -/
def asset_check (expected : Option ℚ) (real : ℚ) (cfg : AssetCheckCfg) : Bool × ℚ :=
  if ¬ cfg.enabled then (true, 0)
  else
    match expected with
    | none => (true, 0)
    | some e =>
      let dev_ratio : ℚ := if e = 0 then 0 else (real - e) / e
      let ok : Bool :=
        (decide (qabs dev_ratio ≤ cfg.max_total_asset_dev)) ||
          isclose_money e real cfg.rel_tol cfg.abs_tol
      (ok, dev_ratio)

/-- The deviation predicate exactly as claim C8 words it: the absolute
deviation ratio `|real - expected| / expected` (note: divided by the *signed*
expected value) exceeds the configured maximum. -/
def claimC8DevExceeds (e real max_dev : ℚ) : Prop :=
  qabs (real - e) / e > max_dev

/-- Embedding of `Order` dataclass from `src/engine/portfolio.py`. -/
structure Order where
  client_order_id : String
  ts_code : String
  side : String
  qty : ℤ
  price_type : String
  limit_price : Option ℚ
  reason : String
  risk_tags : String
deriving DecidableEq

/-- The configuration values read by `fat_finger_check` in
`src/engine/gates.py`: `sanity.max_orders`, `sanity.max_order_value`,
`portfolio.limits.max_pos_per_stock`, `portfolio.limits.max_daily_turnover`
(defaults 50, 500000, 0.2, 0.6). -/
structure FatFingerCfg where
  max_orders : ℕ
  max_order_value : ℚ
  max_pos_per_stock : ℚ
  max_daily_turnover : ℚ
deriving DecidableEq

/-- The default fat-finger configuration. -/
def defaultFatFingerCfg : FatFingerCfg :=
  { max_orders := 50
    max_order_value := 500000
    max_pos_per_stock := 2 / 10
    max_daily_turnover := 6 / 10 }

/-- The notional `fat_finger_check` computes for an order:
`qty * (limit_price if limit_price is not None else 0.0)`. -/
def orderNotional (o : Order) : ℚ := (o.qty : ℚ) * o.limit_price.getD 0

/-- The `1e-12` slack added to the fractional caps in `fat_finger_check`. -/
def ffEps : ℚ := 1 / 10 ^ 12

/-- The per-order loop of `fat_finger_check` (`src/engine/gates.py`): walks
the orders accumulating the BUY notional into `acc`; stops with a reason at
the first BUY order breaching the per-order value cap or (when
`total_assets > 0`) the per-position fraction cap.  SELL orders are only
skipped over.  Numeric interpolation in the reason strings is omitted. -/
def ffLoop (cfg : FatFingerCfg) (total_assets : ℚ) :
    List Order → ℚ → Option String × ℚ
  | [], acc => (none, acc)
  | o :: rest, acc =>
    if o.side = "BUY" then
      let v := orderNotional o
      let acc' := acc + v
      if v > cfg.max_order_value then
        (some "Single order value too large", acc')
      else if total_assets > 0 ∧ v / total_assets > cfg.max_pos_per_stock + ffEps then
        (some "Single position cap exceeded", acc')
      else ffLoop cfg total_assets rest acc'
    else ffLoop cfg total_assets rest acc

/-- Embedding of `fat_finger_check` from `src/engine/gates.py`: `(ok, detail)`;
`ok = false` blocks trading. -/
def fat_finger_check (orders : List Order) (cfg : FatFingerCfg)
    (total_assets : ℚ) : Bool × String :=
  if orders.length > cfg.max_orders then (false, "Too many orders")
  else
    match ffLoop cfg total_assets orders 0 with
    | (some reason, _) => (false, reason)
    | (none, buy_value) =>
      if total_assets > 0 ∧
          buy_value / total_assets > cfg.max_daily_turnover + ffEps then
        (false, "Daily turnover cap exceeded")
      else (true, "OK")

/-- Aggregate BUY notional of a batch (what the loop accumulates). -/
def totalBuyNotional (orders : List Order) : ℚ :=
  ((orders.filter (fun o => o.side = "BUY")).map orderNotional).sum

/-- One row of the `positions` frame consumed by
`PortfolioManager.generate_orders` (after the source's numeric coercion of
`amount` / `market_value`). -/
structure Position where
  ts_code : String
  amount : ℚ
  market_value : ℚ
deriving DecidableEq

/-- One row of the `price_df` quote frame; `none` models `NaN` (the source
coerces these columns with `errors="coerce"`). -/
structure PriceRow where
  ts_code : String
  ref_price : Option ℚ
  last_price : Option ℚ
  up_limit : Option ℚ
  down_limit : Option ℚ
deriving DecidableEq

/-- One row of `picks_ranked` (the two columns `generate_orders` reads). -/
structure RankedPick where
  ts_code : String
  rank_final : ℤ
deriving DecidableEq

/-- One row of `targets`. -/
structure TargetRow where
  ts_code : String
  target_weight : ℚ
deriving DecidableEq

/-- The `PortfolioManager` fields used by `generate_orders`:
`strategy.buffer_zone.top_buy` / `top_sell` (defaults 5 / 20) and
`portfolio.limits.min_order_value` (default 2000). -/
structure PortfolioCfg where
  top_buy : ℕ
  top_sell : ℕ
  min_order_value : ℚ
deriving DecidableEq

/-- Python `int(...)` truncation (toward zero) of a rational. -/
def intTrunc (q : ℚ) : ℤ := if q < 0 then ⌈q⌉ else ⌊q⌋

/-- Embedding of `_round_lot` from `src/engine/portfolio.py`: `0` for non-positive input,
else `floor(qty / lot) * lot`. -/
def round_lot (qty : ℚ) (lot : ℤ) : ℤ :=
  if qty ≤ 0 then 0 else ⌊qty / (lot : ℚ)⌋ * lot

/-- First quote row matching `code` (`px[px["ts_code"] == code].iloc[0]`);
`none` also covers an empty quote frame. -/
def pxRow (px : List PriceRow) (code : String) : Option PriceRow :=
  px.find? (fun r => r.ts_code = code)

/-- The `get_price` closure: prefer `ref_price`, fall back to `last_price`;
`none` models the `NaN` returned when neither is available. -/
def get_price (px : List PriceRow) (code : String) : Option ℚ :=
  match pxRow px code with
  | none => none
  | some r =>
    match r.ref_price with
    | some v => some v
    | none => r.last_price

/-- The `buyable` closure: an instrument at its up-limit
(`¬ (ref_price < up_limit - 1e-6)`) must not be bought; missing quote or
limit data is permissive. -/
def buyable (px : List PriceRow) (code : String) : Bool :=
  match pxRow px code with
  | none => true
  | some r =>
    match r.ref_price, r.up_limit with
    | some p, some up => p < up - 1 / 1000000
    | _, _ => true

/-- The `sellable` closure: an instrument at its down-limit must not be
sold. -/
def sellable (px : List PriceRow) (code : String) : Bool :=
  match pxRow px code with
  | none => true
  | some r =>
    match r.ref_price, r.down_limit with
    | some p, some dn => p > dn + 1 / 1000000
    | _, _ => true

/-- The held codes, `set(pos["ts_code"])`, as a deduplicated list. -/
def heldList (pos : List Position) : List String :=
  (pos.map Position.ts_code).dedup

/-- First positions row for `code` (`pos[pos["ts_code"] == code].iloc[0]`). -/
def posRow (pos : List Position) (code : String) : Option Position :=
  pos.find? (fun r => r.ts_code = code)

/-- Embedding of `picks_ranked.sort_values("rank_final").head(n)["ts_code"]`: codes of
the `n` best-ranked picks (`sort_values` modelled by a stable sort). -/
def topCodes (picks : List RankedPick) (n : ℕ) : List String :=
  ((List.insertionSort (fun a b => a.rank_final ≤ b.rank_final) picks).take n).map
    RankedPick.ts_code

/-- Python dict assignment: overwrite in place if the key exists, else
append. -/
def dictInsert (m : List (String × ℚ)) (k : String) (v : ℚ) :
    List (String × ℚ) :=
  if m.any (fun p => p.1 = k) then
    m.map (fun p => if p.1 = k then (k, v) else p)
  else m ++ [(k, v)]

/-- Embedding of `target_map`: the dict comprehension over the `targets` rows. -/
def targetMap (targets : List TargetRow) : List (String × ℚ) :=
  targets.foldl (fun m r => dictInsert m r.ts_code r.target_weight) []

/-- Step 1 of `generate_orders`: force-sell every held code outside the
retain band (iterated over `sorted(held)`), skipping unsellable codes and
non-positive amounts. -/
def bufferSellOrders (trade_date run_id : String) (pos : List Position)
    (px : List PriceRow) (retain : List String) : List Order :=
  (List.insertionSort (fun a b : String => a ≤ b) (heldList pos)).filterMap
    (fun code =>
      if code ∈ retain then none
      else if ¬ sellable px code then none
      else
        let amt := intTrunc (((posRow pos code).map Position.amount).getD 0)
        if amt > 0 then
          some { client_order_id := trade_date ++ "_" ++ run_id ++ "_SELL_" ++ code
                 ts_code := code
                 side := "SELL"
                 qty := amt
                 price_type := "MKT"
                 limit_price := none
                 reason := "BUFFER_SELL_NOT_RETAIN"
                 risk_tags := "" }
        else none)

/-- One iteration of the rebalance loop (step 2 of `generate_orders`) for a
target-map entry `(code, w)` given the cash still available for buys;
returns the emitted order (if any) and the updated cash. -/
def rebalanceStep (cfg : PortfolioCfg) (trade_date run_id : String)
    (pos : List Position) (px : List PriceRow) (buy_candidates held : List String)
    (total_assets : ℚ) (code : String) (w : ℚ) (cash : ℚ) : Option Order × ℚ :=
  if w ≤ 0 then (none, cash)
  else if code ∉ buy_candidates ∧ code ∉ held then (none, cash)
  else
    match get_price px code with
    | none => (none, cash)
    | some p =>
      if p ≤ 0 then (none, cash)
      else if ¬ buyable px code then (none, cash)
      else
        let desired := w * total_assets
        let cur := if code ∈ held then ((posRow pos code).map Position.market_value).getD 0 else 0
        let diff := desired - cur
        if diff > cfg.min_order_value then
          let buy_value := qmin diff cash
          if buy_value < cfg.min_order_value then (none, cash)
          else
            let qty := round_lot (buy_value / p) 100
            if qty ≤ 0 then (none, cash)
            else
              (some { client_order_id := trade_date ++ "_" ++ run_id ++ "_BUY_" ++ code
                      ts_code := code
                      side := "BUY"
                      qty := qty
                      price_type := "LIMIT"
                      limit_price := some p
                      reason := "TARGET_BUY"
                      risk_tags := "" },
                cash - (qty : ℚ) * p)
        else if diff < -cfg.min_order_value ∧ code ∈ held then
          if ¬ sellable px code then (none, cash)
          else
            let amt := intTrunc (((posRow pos code).map Position.amount).getD 0)
            let sell_value := qmin (-diff) ((amt : ℚ) * p)
            let qty := min (round_lot (sell_value / p) 100) amt
            if qty ≤ 0 then (none, cash)
            else
              (some { client_order_id := trade_date ++ "_" ++ run_id ++ "_SELLR_" ++ code
                      ts_code := code
                      side := "SELL"
                      qty := qty
                      price_type := "LIMIT"
                      limit_price := some p
                      reason := "TARGET_SELL_REBAL"
                      risk_tags := "" },
                cash)
        else (none, cash)

/-- The rebalance loop over the target map, threading `cash_for_buys`
(initialised to `cash_available`; sell proceeds are never credited back —
T+1 settlement). -/
def rebalanceLoop (cfg : PortfolioCfg) (trade_date run_id : String)
    (pos : List Position) (px : List PriceRow) (buy_candidates held : List String)
    (total_assets : ℚ) : List (String × ℚ) → ℚ → List Order × ℚ
  | [], cash => ([], cash)
  | (code, w) :: rest, cash =>
    let s := rebalanceStep cfg trade_date run_id pos px buy_candidates held
      total_assets code w cash
    let r := rebalanceLoop cfg trade_date run_id pos px buy_candidates held
      total_assets rest s.2
    match s.1 with
    | none => r
    | some o => (o :: r.1, r.2)

/-- Embedding of `PortfolioManager.generate_orders` from `src/engine/portfolio.py`:
buffer-zone sells of holdings outside the retain band, then rebalancing
buys/sells toward the target weights. -/
def generate_orders (cfg : PortfolioCfg) (trade_date : String)
    (picks_ranked : List RankedPick) (targets : List TargetRow)
    (positions : List Position) (cash_available total_assets : ℚ)
    (price_df : List PriceRow) (run_id : String) : List Order :=
  let retain := topCodes picks_ranked cfg.top_sell
  let buy_candidates := topCodes picks_ranked cfg.top_buy
  let held := heldList positions
  let sells := bufferSellOrders trade_date run_id positions price_df retain
  let reb := rebalanceLoop cfg trade_date run_id positions price_df
    buy_candidates held total_assets (targetMap targets) cash_available
  sells ++ reb.1

/-- One candidate row passed to `compose_scores`
(`src/engine/score_composer.py`); `score_rule = none` models a missing/NaN
rule score, which `_num_col` fills with the `-1e9` sentinel. -/
structure CandRow where
  ts_code : String
  score_rule : Option ℚ
  universe_flag : ℤ
deriving DecidableEq

/-- One row of `model_ens`, aligned positionally with the candidate frame;
`none` models a missing/NaN value, which `_num_any(me[col], d[col])` fills
with the default column value (0 for `alpha_score`/`risk_prob`/
`disagreement`/`confidence`, 1 for `risk_severity`). -/
structure EnsRow where
  alpha_score : Option ℚ
  risk_prob : Option ℚ
  risk_severity : Option ℚ
  disagreement : Option ℚ
  confidence : Option ℚ
deriving DecidableEq

/-- Configuration read by `compose_scores`: `model.mode` (default
"shadow"), the veto thresholds `severity_ge` (default 3) and `prob_gt`
(default 0.30), and the downweight factor `k` (default 0.50). -/
structure ComposeCfg where
  mode : String
  severity_ge : ℤ
  prob_gt : ℚ
  k : ℚ
deriving DecidableEq

/-- The default `compose_scores` configuration. -/
def defaultComposeCfg : ComposeCfg :=
  { mode := "shadow", severity_ge := 3, prob_gt := 3 / 10, k := 1 / 2 }

/-- The `-1e9` sentinel score. -/
def sentinel : ℚ := -1000000000

/-- Attached `alpha_score` after the `_num_any` fill (default column value 0). -/
def attachedAlpha (e : EnsRow) : ℚ := e.alpha_score.getD 0

/-- Attached `risk_prob` (default column value 0). -/
def attachedProb (e : EnsRow) : ℚ := e.risk_prob.getD 0

/-- Attached `risk_severity` (default column value 1). -/
def attachedSev (e : EnsRow) : ℚ := e.risk_severity.getD 1

/-- The veto mask of `compose_scores`:
`risk_severity >= severity_ge AND risk_prob > prob_gt`. -/
def vetoedB (cfg : ComposeCfg) (e : EnsRow) : Bool :=
  ((cfg.severity_ge : ℚ) ≤ attachedSev e) && (cfg.prob_gt < attachedProb e)

/-- Embedding of `risk_gate_action` as assigned by `compose_scores`: VETO on the veto
mask, else DOWNWEIGHT when `risk_prob > 0`, else the PASS default. -/
def gateAction (cfg : ComposeCfg) (e : EnsRow) : String :=
  if vetoedB cfg e then "VETO"
  else if attachedProb e > 0 then "DOWNWEIGHT"
  else "PASS"

/-- Embedding of `final_score` of one candidate row under `compose_scores` with a
non-empty ensemble frame: rule score (sentinel-filled), optional rerank
boost (`+ 0.25 * (clip(alpha,-3,3) * 5)`), veto to the sentinel or
multiplicative downweight `* (1 - k * clip(risk_prob,0,1))`, and finally
the re-enforced universe hard rule. -/
def composedScore (cfg : ComposeCfg) (r : CandRow) (e : EnsRow) : ℚ :=
  let fs0 := r.score_rule.getD sentinel
  let fs1 :=
    if cfg.mode = "rerank" then fs0 + (1 / 4) * (clamp (attachedAlpha e) (-3) 3 * 5)
    else fs0
  let fs2 :=
    if vetoedB cfg e then sentinel
    else fs1 * (1 - cfg.k * clamp (attachedProb e) 0 1)
  if r.universe_flag ≠ 1 then sentinel else fs2

/-- Embedding of `rank(ascending=False, method="first")` of position `i` in a score
list: one plus the number of strictly larger scores plus the number of
equal scores at earlier positions. -/
def rankFirstDesc (scores : List ℚ) (i : ℕ) : ℤ :=
  1 + ((scores.filter (fun s => scores.getD i 0 < s)).length : ℤ) +
    (((scores.take i).filter (fun s => s = scores.getD i 0)).length : ℤ)

/-- One output row of `compose_scores` (the columns the claims touch). -/
structure ComposedRow where
  ts_code : String
  final_score : ℚ
  risk_gate_action : String
  rank_final : ℤ
deriving DecidableEq

/-- Inhabited defaults used with `List.getD`. -/
def dfltComposed : ComposedRow := ⟨"", 0, "", 0⟩

/-- Default `EnsRow` for `List.getD`. -/
def dfltEns : EnsRow := ⟨none, none, none, none, none⟩

/-- Default `CandRow` for `List.getD`. -/
def dfltCand : CandRow := ⟨"", none, 0⟩

/-- Embedding of `compose_scores` with a non-empty `model_ens` frame, positionally
aligned (its length is assumed to match the candidate frame; pandas
index-alignment corner cases with frames of unequal length are outside the
model). -/
def composeWithEns (rows : List CandRow) (es : List EnsRow)
    (cfg : ComposeCfg) : List ComposedRow :=
  let pairs := rows.zip es
  let scores := pairs.map (fun pr => composedScore cfg pr.1 pr.2)
  pairs.enum.map (fun ipr =>
    { ts_code := ipr.2.1.ts_code
      final_score := scores.getD ipr.1 0
      risk_gate_action := gateAction cfg ipr.2.2
      rank_final := rankFirstDesc scores ipr.1 })

/-- Embedding of `compose_scores` without an ensemble frame (`model_ens` is `None` or
empty): every action stays PASS and only the universe hard rule applies. -/
def composeNoEns (rows : List CandRow) : List ComposedRow :=
  let scores := rows.map (fun r =>
    if r.universe_flag ≠ 1 then sentinel else r.score_rule.getD sentinel)
  rows.enum.map (fun ir =>
    { ts_code := ir.2.ts_code
      final_score := scores.getD ir.1 0
      risk_gate_action := "PASS"
      rank_final := rankFirstDesc scores ir.1 })

/-- Embedding of `compose_scores` from `src/engine/score_composer.py` (empty candidate
frames are handled by the caller-facing empty result, as in the source). -/
def compose_scores (rows : List CandRow) (ens : Option (List EnsRow))
    (cfg : ComposeCfg) : List ComposedRow :=
  if rows.isEmpty then []
  else
    match ens with
    | none => composeNoEns rows
    | some es => if es.isEmpty then composeNoEns rows else composeWithEns rows es cfg

/-- A `picks_daily` row as written by the night job
(`src/jobs/night_job.py`): the `(trade_date, ts_code, config_hash)` primary
key, the score payload, and the per-run metadata columns `run_id` /
`created_at`.  (The remaining payload columns behave like `final_score` /
`rank_final` and are elided.) -/
structure PickRowDB where
  trade_date : String
  ts_code : String
  config_hash : String
  final_score : ℚ
  rank_final : ℤ
  run_id : String
  created_at : String
deriving DecidableEq

/-- The `picks_daily` primary key. -/
def pickPK (r : PickRowDB) : String × String × String :=
  (r.trade_date, r.ts_code, r.config_hash)

/-- A row with its per-run metadata (`run_id`, `created_at`) erased. -/
def pickData (r : PickRowDB) : String × String × String × ℚ × ℤ :=
  (r.trade_date, r.ts_code, r.config_hash, r.final_score, r.rank_final)

/-- SQLite `INSERT OR REPLACE` of one row into a table: the conflicting row
(same primary key) is deleted, the new row inserted. -/
def upsertRow {α κ : Type} [DecidableEq κ] (pk : α → κ) (table : List α)
    (r : α) : List α :=
  (table.filter (fun t => pk t ≠ pk r)) ++ [r]

/-- Embedding of `upsert_df` from `src/storage/upsert.py`: one `INSERT OR REPLACE` per
frame row, in frame order. -/
def upsert_df {α κ : Type} [DecidableEq κ] (pk : α → κ) (table : List α)
    (df : List α) : List α :=
  df.foldl (upsertRow pk) table

/-- Embedding of `make_run_id` from `src/core/timeutil.py`:
`prefix_timestamp_pid_random`; the timestamp has second resolution and the
suffix is 6 random characters, so two runs get different identifiers. -/
def make_run_id (pfx ts : String) (pid : ℕ) (rand : String) : String :=
  pfx ++ "_" ++ ts ++ "_" ++ toString pid ++ "_" ++ rand

/-- The `picks_daily` rows one night-job run writes for trade date `td`,
configuration fingerprint `ch` and score results `scores`
(ts_code, final_score, rank_final), stamped with the run's `run_id` and
`created_at`. -/
def nightPickRows (td ch : String) (scores : List (String × ℚ × ℤ))
    (run_id created_at : String) : List PickRowDB :=
  scores.map (fun s =>
    { trade_date := td, ts_code := s.1, config_hash := ch,
      final_score := s.2.1, rank_final := s.2.2,
      run_id := run_id, created_at := created_at })

/-- The night job's `picks_daily` write: `upsert_df(conn, "picks_daily",
picks_out, pk_cols=["trade_date","ts_code","config_hash"])`. -/
def runNightUpsert (table : List PickRowDB) (td ch : String)
    (scores : List (String × ℚ × ℤ)) (run_id created_at : String) :
    List PickRowDB :=
  upsert_df pickPK table (nightPickRows td ch scores run_id created_at)

theorem upsert_df_eq {α κ : Type} [DecidableEq κ] (pk : α → κ)
    (table df : List α) (hnd : (df.map pk).Nodup) :
    upsert_df pk table df =
      table.filter (fun t => ¬ pk t ∈ df.map pk) ++ df := by
  induction df generalizing table with
  | nil => simp [upsert_df]
  | cons a rest ih =>
    have hnd' : (rest.map pk).Nodup := by
      rw [List.map_cons] at hnd
      exact hnd.of_cons
    have hna : ¬ pk a ∈ rest.map pk := by
      rw [List.map_cons] at hnd
      exact (List.nodup_cons.mp hnd).1
    show upsert_df pk (upsertRow pk table a) rest = _
    rw [ih (upsertRow pk table a) hnd']
    unfold upsertRow
    rw [List.filter_append]
    have hfa : ([a].filter (fun t => ¬ pk t ∈ rest.map pk)) = [a] := by
      rw [show ([a] : List α) = a :: [] from rfl]
      rw [List.filter_cons_of_pos (by simpa using hna)]
      rfl
    rw [hfa]
    rw [List.filter_filter]
    have hcong : ∀ x ∈ table,
        (decide (¬ pk x ∈ rest.map pk) && decide (pk x ≠ pk a)) =
          decide (¬ pk x ∈ (a :: rest).map pk) := by
      intro x _
      by_cases h1 : pk x = pk a <;> by_cases h2 : pk x ∈ rest.map pk <;>
        simp [h1, h2]
    rw [List.filter_congr hcong]
    simp [List.append_assoc]

theorem nightPickRows_pks (td ch : String) (scores : List (String × ℚ × ℤ))
    (rid cat : String) :
    (nightPickRows td ch scores rid cat).map pickPK =
      scores.map (fun s => (td, s.1, ch)) := by
  simp [nightPickRows, pickPK, Function.comp]

theorem nightPickRows_data (td ch : String) (scores : List (String × ℚ × ℤ))
    (rid cat : String) :
    (nightPickRows td ch scores rid cat).map pickData =
      scores.map (fun s => (td, s.1, ch, s.2.1, s.2.2)) := by
  simp [nightPickRows, pickData, Function.comp]

/-- C2 counterexample: running the night-job upsert twice for the same
trade date, configuration fingerprint and scores — but, as in the code,
with fresh `make_run_id` / `created_at` stamps — produces a table that is
NOT bit-identical to the one after the first run: the surviving row carries
the second run's `run_id` and `created_at`. -/
theorem C2_counterexample :
    runNightUpsert
        (runNightUpsert [] "2025-01-06" "cfgA" [("000001.SZ", (1 : ℚ), (1 : ℤ))]
          (make_run_id "NIGHT" "20250106_210000" 100 "aaaaaa") "2025-01-06T21:00:00")
        "2025-01-06" "cfgA" [("000001.SZ", (1 : ℚ), (1 : ℤ))]
        (make_run_id "NIGHT" "20250106_213000" 100 "bbbbbb") "2025-01-06T21:30:00" ≠
      runNightUpsert [] "2025-01-06" "cfgA" [("000001.SZ", (1 : ℚ), (1 : ℤ))]
        (make_run_id "NIGHT" "20250106_210000" 100 "aaaaaa") "2025-01-06T21:00:00" := by
  decide

/-- C2 (amended): re-running the night job's `INSERT OR REPLACE` upsert for
the same trade date, configuration fingerprint and score results (ts_codes
distinct) is idempotent up to run metadata: the primary-key column and the
score payload of the resulting table are identical to the first run's (same
PK row counts, same values — so never duplicate or conflicting rows), a
re-run with the *same* metadata reproduces the table bit-identically, and
primary-key uniqueness is preserved; only the `run_id` / `created_at`
columns change across runs. -/
theorem C2_night_rerun_amended (table : List PickRowDB) (td ch : String)
    (scores : List (String × ℚ × ℤ)) (r1 c1 r2 c2 : String)
    (hnd : (scores.map Prod.fst).Nodup) :
    (runNightUpsert (runNightUpsert table td ch scores r1 c1) td ch scores r2 c2).map pickPK =
      (runNightUpsert table td ch scores r1 c1).map pickPK ∧
    (runNightUpsert (runNightUpsert table td ch scores r1 c1) td ch scores r2 c2).map pickData =
      (runNightUpsert table td ch scores r1 c1).map pickData ∧
    runNightUpsert (runNightUpsert table td ch scores r1 c1) td ch scores r1 c1 =
      runNightUpsert table td ch scores r1 c1 ∧
    ((table.map pickPK).Nodup →
      ((runNightUpsert (runNightUpsert table td ch scores r1 c1) td ch scores r2 c2).map pickPK).Nodup) := by
  have hpknd : ∀ rid cat, ((nightPickRows td ch scores rid cat).map pickPK).Nodup := by
    intro rid cat
    rw [nightPickRows_pks]
    have hmm : scores.map (fun s => (td, s.1, ch)) =
        (scores.map Prod.fst).map (fun c => (td, c, ch)) := by
      rw [List.map_map]
      rfl
    rw [hmm]
    apply List.Nodup.map _ hnd
    intro a b hab
    simpa using hab
  have hmem : ∀ rid cat x, x ∈ nightPickRows td ch scores rid cat →
      pickPK x ∈ scores.map (fun s => (td, s.1, ch)) := by
    intro rid cat x hx
    unfold nightPickRows at hx
    rcases List.mem_map.mp hx with ⟨s, hs, hsx⟩
    subst hsx
    exact List.mem_map.mpr ⟨s, hs, rfl⟩
  have hrun : ∀ (t : List PickRowDB) rid cat,
      runNightUpsert t td ch scores rid cat =
        t.filter (fun x => ¬ pickPK x ∈ scores.map (fun s => (td, s.1, ch))) ++
          nightPickRows td ch scores rid cat := by
    intro t rid cat
    unfold runNightUpsert
    rw [upsert_df_eq pickPK t _ (hpknd rid cat)]
    rw [nightPickRows_pks]
    congr 1
    apply List.filter_congr
    intro x _
    exact decide_eq_decide.mpr Iff.rfl
  have hfilt : ∀ rid cat,
      (runNightUpsert table td ch scores rid cat).filter
          (fun x => ¬ pickPK x ∈ scores.map (fun s => (td, s.1, ch))) =
        table.filter (fun x => ¬ pickPK x ∈ scores.map (fun s => (td, s.1, ch))) := by
    intro rid cat
    rw [hrun table rid cat, List.filter_append]
    have h1 : (table.filter (fun x => ¬ pickPK x ∈ scores.map (fun s => (td, s.1, ch)))).filter
        (fun x => ¬ pickPK x ∈ scores.map (fun s => (td, s.1, ch))) =
        table.filter (fun x => ¬ pickPK x ∈ scores.map (fun s => (td, s.1, ch))) := by
      rw [List.filter_filter]
      apply List.filter_congr
      intro x _
      rw [Bool.and_self]
    have h2 : (nightPickRows td ch scores rid cat).filter
        (fun x => ¬ pickPK x ∈ scores.map (fun s => (td, s.1, ch))) = [] := by
      apply List.filter_eq_nil_iff.mpr
      intro x hx
      simpa using hmem rid cat x hx
    rw [h1, h2, List.append_nil]
  refine ⟨?_, ?_, ?_, ?_⟩
  · rw [hrun (runNightUpsert table td ch scores r1 c1) r2 c2, hfilt r1 c1,
      hrun table r1 c1]
    rw [List.map_append, List.map_append, nightPickRows_pks, nightPickRows_pks]
  · rw [hrun (runNightUpsert table td ch scores r1 c1) r2 c2, hfilt r1 c1,
      hrun table r1 c1]
    rw [List.map_append, List.map_append, nightPickRows_data, nightPickRows_data]
  · rw [hrun (runNightUpsert table td ch scores r1 c1) r1 c1, hfilt r1 c1,
      hrun table r1 c1]
  · intro htnd
    rw [hrun (runNightUpsert table td ch scores r1 c1) r2 c2, hfilt r1 c1]
    rw [List.map_append]
    apply List.Nodup.append
    · apply List.Nodup.sublist _ htnd
      exact List.Sublist.map pickPK (List.filter_sublist table)
    · exact hpknd r2 c2
    · intro a ha hb
      rcases List.mem_map.mp ha with ⟨x, hx, hxa⟩
      have hxP := List.of_mem_filter hx
      rw [nightPickRows_pks] at hb
      rw [← hxa] at hb
      simp only [decide_eq_true_eq] at hxP
      exact hxP hb

/-- C2 witness: the amended theorem applied at a concrete table and run
pair (one score row, two distinct run identifiers). -/
theorem C2_night_rerun_amended_witness :
    ([("000001.SZ", (1 : ℚ), (2 : ℤ))].map Prod.fst).Nodup ∧
      (runNightUpsert (runNightUpsert [] "2025-01-06" "cfgA"
          [("000001.SZ", (1 : ℚ), (2 : ℤ))] "R1" "t1") "2025-01-06" "cfgA"
          [("000001.SZ", (1 : ℚ), (2 : ℤ))] "R2" "t2").map pickPK =
        (runNightUpsert [] "2025-01-06" "cfgA"
          [("000001.SZ", (1 : ℚ), (2 : ℤ))] "R1" "t1").map pickPK :=
  ⟨by decide,
    (C2_night_rerun_amended [] "2025-01-06" "cfgA"
      [("000001.SZ", (1 : ℚ), (2 : ℤ))] "R1" "t1" "R2" "t2" (by decide)).1⟩

/-- One input row of the frame scored by `DualHeadModelEngine.score`
(`src/engine/models/dual_head.py`); only `vol_proxy` feeds the numeric
defaults, the other feature columns feed the prompt text.  `none` models
NaN (filled with 0 by `.fillna(0.0)`). -/
structure ScoreInRow where
  ts_code : String
  vol_proxy : Option ℚ
deriving DecidableEq

/-- A parsed oracle JSON object (`_first_json_obj` result): each field may
be absent.  Present fields are assumed numeric — a present non-numeric
`alpha` would raise `ValueError` out of `score`, which the model omits. -/
structure OracleObj where
  alpha : Option ℚ
  risk_prob : Option ℚ
  risk_sev : Option ℤ
  conf : Option ℚ
  comment : Option String
deriving DecidableEq

/-- Outcome of one `_openai_chat_call`: an error string (timeout, HTTP
failure, missing SDK, ...) or returned content whose first JSON object is
`obj` (`none` = no parseable object, the "bad json" case). -/
inductive OracleReply where
  | err (msg : String)
  | content (obj : Option OracleObj)
deriving DecidableEq

/-- Embedding of `DualHeadModelEngine` configuration: `model.enabled`,
`model.budget_sec`, `model.max_items`, and the two API keys as read from
the environment (empty string = missing). -/
structure DualHeadCfg where
  enabled : Bool
  budget_sec : ℚ
  max_items : ℕ
  ds_key : String
  qw_key : String
deriving DecidableEq

/-- One output row of `score`: the per-oracle columns, the reconciled
finals (`none` models a column the early-return missing-key branch never
creates) and the action tag. -/
structure ScoreOutRow where
  ts_code : String
  alpha_ds : ℚ
  alpha_qw : ℚ
  risk_prob_ds : ℚ
  risk_prob_qw : ℚ
  risk_sev_ds : ℤ
  risk_sev_qw : ℤ
  conf_ds : ℚ
  conf_qw : ℚ
  comment_ds : String
  comment_qw : String
  alpha_final : Option ℚ
  risk_prob_final : Option ℚ
  risk_sev_final : Option ℤ
  disagreement : Option ℚ
  action : String
deriving DecidableEq

/-- Defaults for `List.getD`. -/
def dfltIn : ScoreInRow := ⟨"", none⟩

/-- Default `ScoreOutRow` for `List.getD`. -/
def dfltOut : ScoreOutRow :=
  ⟨"", 0, 0, 0, 0, 0, 0, 0, 0, "", "", none, none, none, none, ""⟩

/-- The volatility-proxy-based default risk probability:
`_clamp(mean(vol_proxy.fillna(0)) / 100, 0, 1)` (a single scalar broadcast
to the whole frame).  On `ℚ` an empty frame gives `0/0 = 0` where pandas
would give NaN; the theorems below never use empty frames. -/
def volDefaultProb (rows : List ScoreInRow) : ℚ :=
  clamp ((rows.map (fun r => r.vol_proxy.getD 0)).sum / rows.length / 100) 0 1

/-- The placeholder columns `score` assigns up front ("so UI always has
columns"): zero alphas, the vol-proxy default risk probability, severity 2,
confidence 0.5 and the "shadow disabled" comments; no final columns yet. -/
def placeholderRow (dprob : ℚ) (r : ScoreInRow) : ScoreOutRow :=
  { ts_code := r.ts_code
    alpha_ds := 0, alpha_qw := 0
    risk_prob_ds := dprob, risk_prob_qw := dprob
    risk_sev_ds := 2, risk_sev_qw := 2
    conf_ds := 1 / 2, conf_qw := 1 / 2
    comment_ds := "shadow disabled", comment_qw := "shadow disabled"
    alpha_final := none, risk_prob_final := none, risk_sev_final := none
    disagreement := none, action := "" }

/-- Per-row update from the DeepSeek reply: on error only the comment is
set (other columns keep their placeholder values); on unparseable content
the "bad json" comment; on a parsed object the clamped fields, with the
object's absent fields defaulting as in the source (`risk_prob` defaults to
the row's current — i.e. vol-proxy — value, `risk_sev` to 2, `conf` to
0.5). -/
def applyDS (rep : OracleReply) (o : ScoreOutRow) : ScoreOutRow :=
  match rep with
  | .err msg => { o with comment_ds := "deepseek err: " ++ msg.take 80 }
  | .content none => { o with comment_ds := "deepseek: bad json" }
  | .content (some obj) =>
    { o with
      alpha_ds := clamp (obj.alpha.getD 0) (-3) 3
      risk_prob_ds := clamp (obj.risk_prob.getD o.risk_prob_ds) 0 1
      risk_sev_ds := obj.risk_sev.getD 2
      conf_ds := clamp (obj.conf.getD (1 / 2)) 0 1
      comment_ds := ((obj.comment.getD "").trim).take 120 }

/-- Per-row update from the Qwen reply (same shape as `applyDS`). -/
def applyQW (rep : OracleReply) (o : ScoreOutRow) : ScoreOutRow :=
  match rep with
  | .err msg => { o with comment_qw := "qwen err: " ++ msg.take 80 }
  | .content none => { o with comment_qw := "qwen: bad json" }
  | .content (some obj) =>
    { o with
      alpha_qw := clamp (obj.alpha.getD 0) (-3) 3
      risk_prob_qw := clamp (obj.risk_prob.getD o.risk_prob_qw) 0 1
      risk_sev_qw := obj.risk_sev.getD 2
      conf_qw := clamp (obj.conf.getD (1 / 2)) 0 1
      comment_qw := ((obj.comment.getD "").trim).take 120 }

/-- Embedding of `max(1, min(max_items, len(out)))`: how many leading rows the loop
visits. -/
def workCount (cfg : DualHeadCfg) (len : ℕ) : ℕ := max 1 (min cfg.max_items len)

/-- Whether the wall-clock budget check `(time.time() - t0) > budget_sec`
has fired at or before loop iteration `n`; `elapsed m` is the elapsed time
observed at entry of iteration `m` (external nondeterminism passed in as a
function). -/
def brokeBefore (elapsed : ℕ → ℚ) (budget : ℚ) (n : ℕ) : Bool :=
  (List.range (n + 1)).any (fun m => budget < elapsed m)

/-- The two-value median (pandas `.median(axis=1)` over two columns is
their mean). -/
def median2 (a b : ℚ) : ℚ := (a + b) / 2

/-- The reconciliation block at the end of `score`: final alpha = clamped
two-value median, final risk probability = clamped maximum, final severity
= maximum, disagreement = |alpha_ds - alpha_qw| / 6, action OK. -/
def withFinals (o : ScoreOutRow) : ScoreOutRow :=
  { o with
    alpha_final := some (clamp (median2 o.alpha_ds o.alpha_qw) (-3) 3)
    risk_prob_final := some (clamp (qmax o.risk_prob_ds o.risk_prob_qw) 0 1)
    risk_sev_final := some (max o.risk_sev_ds o.risk_sev_qw)
    disagreement := some (qabs (o.alpha_ds - o.alpha_qw) / 6)
    action := "OK" }

/-- Embedding of `DualHeadModelEngine.score`: the disabled path (placeholders +
finals), the enabled-but-missing-key early return (comments
"missing api key", action BLOCK, no final columns), and the enabled loop —
each of the first `max(1, min(max_items, len))` rows is updated from the
two oracle replies unless the wall-clock budget broke first, then the
reconciled finals are computed for the whole frame. -/
def score (cfg : DualHeadCfg) (ds qw : ℕ → OracleReply) (elapsed : ℕ → ℚ)
    (rows : List ScoreInRow) : List ScoreOutRow :=
  let dprob := volDefaultProb rows
  if ¬ cfg.enabled then
    rows.map (fun r => withFinals (placeholderRow dprob r))
  else if cfg.ds_key = "" ∨ cfg.qw_key = "" then
    rows.map (fun r =>
      { placeholderRow dprob r with
        comment_ds := "missing api key"
        comment_qw := "missing api key"
        action := "BLOCK" })
  else
    rows.enum.map (fun ir =>
      if ir.1 < workCount cfg rows.length ∧
          brokeBefore elapsed cfg.budget_sec ir.1 = false then
        withFinals (applyQW (qw ir.1) (applyDS (ds ir.1) (placeholderRow dprob ir.2)))
      else withFinals (placeholderRow dprob ir.2))

theorem lo_le_clamp (x lo hi : ℚ) : lo ≤ clamp x lo hi := by
  rw [clamp, qmax_eq_max]
  exact le_max_left lo _

theorem clamp_le_hi (x lo hi : ℚ) (h : lo ≤ hi) : clamp x lo hi ≤ hi := by
  rw [clamp, qmax_eq_max, qmin_eq_min]
  exact max_le h (min_le_left hi x)

theorem score_getD_enabled (cfg : DualHeadCfg) (ds qw : ℕ → OracleReply)
    (elapsed : ℕ → ℚ) (rows : List ScoreInRow) (n : ℕ) (hn : n < rows.length)
    (hen : cfg.enabled = true) (h1 : ¬ cfg.ds_key = "")
    (h2 : ¬ cfg.qw_key = "") :
    (score cfg ds qw elapsed rows).getD n dfltOut =
      (if n < workCount cfg rows.length ∧
          brokeBefore elapsed cfg.budget_sec n = false then
        withFinals (applyQW (qw n) (applyDS (ds n)
          (placeholderRow (volDefaultProb rows) (rows.getD n dfltIn))))
      else withFinals (placeholderRow (volDefaultProb rows) (rows.getD n dfltIn))) := by
  simp only [score]
  rw [if_neg (by simp [hen])]
  rw [if_neg (by push_neg; exact ⟨h1, h2⟩)]
  have hn' : n < (rows.enum.map (fun ir =>
      if ir.1 < workCount cfg rows.length ∧
          brokeBefore elapsed cfg.budget_sec ir.1 = false then
        withFinals (applyQW (qw ir.1) (applyDS (ds ir.1)
          (placeholderRow (volDefaultProb rows) ir.2)))
      else withFinals (placeholderRow (volDefaultProb rows) ir.2))).length := by
    simpa using hn
  rw [List.getD_eq_getElem _ _ hn', List.getElem_map, List.getElem_enum]
  rw [← List.getD_eq_getElem rows dfltIn hn]

theorem score_getD_disabled (cfg : DualHeadCfg) (ds qw : ℕ → OracleReply)
    (elapsed : ℕ → ℚ) (rows : List ScoreInRow) (n : ℕ) (hn : n < rows.length)
    (hen : cfg.enabled = false) :
    (score cfg ds qw elapsed rows).getD n dfltOut =
      withFinals (placeholderRow (volDefaultProb rows) (rows.getD n dfltIn)) := by
  simp only [score]
  rw [if_pos (by simp [hen])]
  have hn' : n < (rows.map (fun r =>
      withFinals (placeholderRow (volDefaultProb rows) r))).length := by
    simpa using hn
  rw [List.getD_eq_getElem _ _ hn', List.getElem_map]
  rw [← List.getD_eq_getElem rows dfltIn hn]

/-- C5 counterexample: one instrument with `vol_proxy = 50`; both oracle
calls fail ("timed out"), the engine is enabled with both keys present and
the budget not exceeded.  The instrument's output is tagged with the
non-empty degraded reason, but it is NOT the claimed neutral default: its
risk probability is the vol-proxy default 0.5 (not 0), its severity is 2
(not the minimum), and its confidence is 0.5 (not 0). -/
theorem C5_counterexample :
    ((score ⟨true, 1200, 20, "k1", "k2"⟩ (fun _ => .err "timed out")
          (fun _ => .err "timed out") (fun _ => 0)
          [⟨"000001.SZ", some 50⟩]).getD 0 dfltOut).risk_prob_ds = 1 / 2 ∧
      ((score ⟨true, 1200, 20, "k1", "k2"⟩ (fun _ => .err "timed out")
          (fun _ => .err "timed out") (fun _ => 0)
          [⟨"000001.SZ", some 50⟩]).getD 0 dfltOut).risk_prob_ds ≠ 0 ∧
      ((score ⟨true, 1200, 20, "k1", "k2"⟩ (fun _ => .err "timed out")
          (fun _ => .err "timed out") (fun _ => 0)
          [⟨"000001.SZ", some 50⟩]).getD 0 dfltOut).conf_ds = 1 / 2 ∧
      ((score ⟨true, 1200, 20, "k1", "k2"⟩ (fun _ => .err "timed out")
          (fun _ => .err "timed out") (fun _ => 0)
          [⟨"000001.SZ", some 50⟩]).getD 0 dfltOut).conf_ds ≠ 0 ∧
      ((score ⟨true, 1200, 20, "k1", "k2"⟩ (fun _ => .err "timed out")
          (fun _ => .err "timed out") (fun _ => 0)
          [⟨"000001.SZ", some 50⟩]).getD 0 dfltOut).risk_sev_ds = 2 ∧
      ((score ⟨true, 1200, 20, "k1", "k2"⟩ (fun _ => .err "timed out")
          (fun _ => .err "timed out") (fun _ => 0)
          [⟨"000001.SZ", some 50⟩]).getD 0 dfltOut).comment_ds =
        "deepseek err: timed out" := by
  have hrow := score_getD_enabled ⟨true, 1200, 20, "k1", "k2"⟩
    (fun _ => .err "timed out") (fun _ => .err "timed out") (fun _ => 0)
    [⟨"000001.SZ", some 50⟩] 0 (by decide) rfl (by decide) (by decide)
  rw [if_pos (by decide)] at hrow
  rw [hrow]
  refine ⟨?_, ?_, ?_, ?_, ?_, ?_⟩
  · norm_num [withFinals, applyDS, applyQW, placeholderRow, volDefaultProb,
      clamp, qmin, qmax, dfltIn]
  · norm_num [withFinals, applyDS, applyQW, placeholderRow, volDefaultProb,
      clamp, qmin, qmax, dfltIn]
  · norm_num [withFinals, applyDS, applyQW, placeholderRow]
  · norm_num [withFinals, applyDS, applyQW, placeholderRow]
  · norm_num [withFinals, applyDS, applyQW, placeholderRow]
  · simp only [withFinals, applyDS, applyQW, placeholderRow]
    set_option maxRecDepth 4000 in decide

/-- True exactly for the replies the source degrades: a failed call
(`err`) or content with no parseable JSON object (the "bad json" case). -/
def degradedReply : OracleReply → Bool
  | .err _ => true
  | .content none => true
  | .content (some _) => false

/-- The degraded-reason comment the DeepSeek branch writes for a failed or
unparseable reply. -/
def dsDegradedComment : OracleReply → String
  | .err msg => "deepseek err: " ++ msg.take 80
  | .content none => "deepseek: bad json"
  | .content (some _) => ""

/-- The degraded-reason comment the Qwen branch writes for a failed or
unparseable reply. -/
def qwDegradedComment : OracleReply → String
  | .err msg => "qwen err: " ++ msg.take 80
  | .content none => "qwen: bad json"
  | .content (some _) => ""

theorem dsDegradedComment_ne (rep : OracleReply)
    (h : degradedReply rep = true) : dsDegradedComment rep ≠ "" := by
  cases rep with
  | err msg =>
    simp only [dsDegradedComment]
    intro hcontra
    have hlen := congrArg String.length hcontra
    rw [String.length_append] at hlen
    rw [show ("deepseek err: ").length = 14 from by decide] at hlen
    simp at hlen
  | content obj =>
    cases obj with
    | none => exact fun hcontra => by exact absurd hcontra (by decide)
    | some o => exact absurd h (by simp [degradedReply])

theorem qwDegradedComment_ne (rep : OracleReply)
    (h : degradedReply rep = true) : qwDegradedComment rep ≠ "" := by
  cases rep with
  | err msg =>
    simp only [qwDegradedComment]
    intro hcontra
    have hlen := congrArg String.length hcontra
    rw [String.length_append] at hlen
    rw [show ("qwen err: ").length = 10 from by decide] at hlen
    simp at hlen
  | content obj =>
    cases obj with
    | none => exact fun hcontra => by exact absurd hcontra (by decide)
    | some o => exact absurd h (by simp [degradedReply])

theorem applyDS_degraded (rep : OracleReply) (b : ScoreOutRow)
    (h : degradedReply rep = true) :
    (applyDS rep b).alpha_ds = b.alpha_ds ∧
    (applyDS rep b).risk_prob_ds = b.risk_prob_ds ∧
    (applyDS rep b).risk_sev_ds = b.risk_sev_ds ∧
    (applyDS rep b).conf_ds = b.conf_ds ∧
    (applyDS rep b).comment_ds = dsDegradedComment rep := by
  cases rep with
  | err msg => simp [applyDS, dsDegradedComment]
  | content obj =>
    cases obj with
    | none => simp [applyDS, dsDegradedComment]
    | some o => exact absurd h (by simp [degradedReply])

theorem applyQW_degraded (rep : OracleReply) (b : ScoreOutRow)
    (h : degradedReply rep = true) :
    (applyQW rep b).alpha_qw = b.alpha_qw ∧
    (applyQW rep b).risk_prob_qw = b.risk_prob_qw ∧
    (applyQW rep b).risk_sev_qw = b.risk_sev_qw ∧
    (applyQW rep b).conf_qw = b.conf_qw ∧
    (applyQW rep b).comment_qw = qwDegradedComment rep := by
  cases rep with
  | err msg => simp [applyQW, qwDegradedComment]
  | content obj =>
    cases obj with
    | none => simp [applyQW, qwDegradedComment]
    | some o => exact absurd h (by simp [degradedReply])

theorem applyQW_preserves_ds (rep : OracleReply) (b : ScoreOutRow) :
    (applyQW rep b).alpha_ds = b.alpha_ds ∧
    (applyQW rep b).risk_prob_ds = b.risk_prob_ds ∧
    (applyQW rep b).risk_sev_ds = b.risk_sev_ds ∧
    (applyQW rep b).conf_ds = b.conf_ds ∧
    (applyQW rep b).comment_ds = b.comment_ds := by
  cases rep with
  | err msg => simp [applyQW]
  | content obj => cases obj <;> simp [applyQW]

theorem applyDS_preserves_qw (rep : OracleReply) (b : ScoreOutRow) :
    (applyDS rep b).alpha_qw = b.alpha_qw ∧
    (applyDS rep b).risk_prob_qw = b.risk_prob_qw ∧
    (applyDS rep b).risk_sev_qw = b.risk_sev_qw ∧
    (applyDS rep b).conf_qw = b.conf_qw ∧
    (applyDS rep b).comment_qw = b.comment_qw := by
  cases rep with
  | err msg => simp [applyDS]
  | content obj => cases obj <;> simp [applyDS]

/-- C5 (amended): with the engine enabled, both keys present and the
budget not yet broken, an instrument whose oracle call fails OR returns an
unparseable payload — on either the DeepSeek or the Qwen side — keeps that
side's *placeholder* columns: alpha 0, risk probability equal to the
vol-proxy default, severity 2, confidence 0.5, tagged with that side's
non-empty degraded comment ("... err: ..." / "...: bad json"); the
per-row loop still completes (one output row per input row) and the row's
action is OK.  (The spec's neutral values 0 / minimum severity /
confidence 0 are not what the code assigns.) -/
theorem C5_oracle_failure_amended (cfg : DualHeadCfg) (ds qw : ℕ → OracleReply)
    (elapsed : ℕ → ℚ) (rows : List ScoreInRow) (n : ℕ)
    (hen : cfg.enabled = true) (h1 : ¬ cfg.ds_key = "") (h2 : ¬ cfg.qw_key = "")
    (hn : n < rows.length)
    (hproc : n < workCount cfg rows.length ∧
      brokeBefore elapsed cfg.budget_sec n = false) :
    (degradedReply (ds n) = true →
      ((score cfg ds qw elapsed rows).getD n dfltOut).alpha_ds = 0 ∧
      ((score cfg ds qw elapsed rows).getD n dfltOut).risk_prob_ds =
        volDefaultProb rows ∧
      ((score cfg ds qw elapsed rows).getD n dfltOut).risk_sev_ds = 2 ∧
      ((score cfg ds qw elapsed rows).getD n dfltOut).conf_ds = 1 / 2 ∧
      ((score cfg ds qw elapsed rows).getD n dfltOut).comment_ds =
        dsDegradedComment (ds n) ∧
      ((score cfg ds qw elapsed rows).getD n dfltOut).comment_ds ≠ "") ∧
    (degradedReply (qw n) = true →
      ((score cfg ds qw elapsed rows).getD n dfltOut).alpha_qw = 0 ∧
      ((score cfg ds qw elapsed rows).getD n dfltOut).risk_prob_qw =
        volDefaultProb rows ∧
      ((score cfg ds qw elapsed rows).getD n dfltOut).risk_sev_qw = 2 ∧
      ((score cfg ds qw elapsed rows).getD n dfltOut).conf_qw = 1 / 2 ∧
      ((score cfg ds qw elapsed rows).getD n dfltOut).comment_qw =
        qwDegradedComment (qw n) ∧
      ((score cfg ds qw elapsed rows).getD n dfltOut).comment_qw ≠ "") ∧
    ((score cfg ds qw elapsed rows).getD n dfltOut).action = "OK" ∧
    (score cfg ds qw elapsed rows).length = rows.length := by
  have hrow := score_getD_enabled cfg ds qw elapsed rows n hn hen h1 h2
  rw [if_pos hproc] at hrow
  have hlen : (score cfg ds qw elapsed rows).length = rows.length := by
    simp only [score]
    rw [if_neg (by simp [hen])]
    rw [if_neg (by push_neg; exact ⟨h1, h2⟩)]
    simp
  refine ⟨?_, ?_, ?_, hlen⟩
  · intro hdeg
    rw [hrow]
    obtain ⟨e1, e2, e3, e4, e5⟩ := applyQW_preserves_ds (qw n)
      (applyDS (ds n) (placeholderRow (volDefaultProb rows) (rows.getD n dfltIn)))
    obtain ⟨d1, d2, d3, d4, d5⟩ := applyDS_degraded (ds n)
      (placeholderRow (volDefaultProb rows) (rows.getD n dfltIn)) hdeg
    refine ⟨?_, ?_, ?_, ?_, ?_, ?_⟩
    · simp only [withFinals]
      rw [e1, d1]
      simp [placeholderRow]
    · simp only [withFinals]
      rw [e2, d2]
      simp [placeholderRow]
    · simp only [withFinals]
      rw [e3, d3]
      simp [placeholderRow]
    · simp only [withFinals]
      rw [e4, d4]
      simp [placeholderRow]
    · simp only [withFinals]
      rw [e5, d5]
    · simp only [withFinals]
      rw [e5, d5]
      exact dsDegradedComment_ne (ds n) hdeg
  · intro hdeg
    rw [hrow]
    obtain ⟨e1, e2, e3, e4, e5⟩ := applyQW_degraded (qw n)
      (applyDS (ds n) (placeholderRow (volDefaultProb rows) (rows.getD n dfltIn)))
      hdeg
    obtain ⟨d1, d2, d3, d4, d5⟩ := applyDS_preserves_qw (ds n)
      (placeholderRow (volDefaultProb rows) (rows.getD n dfltIn))
    refine ⟨?_, ?_, ?_, ?_, ?_, ?_⟩
    · simp only [withFinals]
      rw [e1, d1]
      simp [placeholderRow]
    · simp only [withFinals]
      rw [e2, d2]
      simp [placeholderRow]
    · simp only [withFinals]
      rw [e3, d3]
      simp [placeholderRow]
    · simp only [withFinals]
      rw [e4, d4]
      simp [placeholderRow]
    · simp only [withFinals]
      rw [e5]
    · simp only [withFinals]
      rw [e5]
      exact qwDegradedComment_ne (qw n) hdeg
  · rw [hrow]
    simp [withFinals]

/-- C5 witness: the amended theorem applied at a concrete batch where the
DeepSeek call fails ("timed out") AND the Qwen call returns an unparseable
payload, exercising both degraded branches at once. -/
theorem C5_oracle_failure_amended_witness :
    (degradedReply (OracleReply.err "timed out") = true →
      ((score ⟨true, 1200, 20, "k1", "k2"⟩ (fun _ => .err "timed out")
          (fun _ => .content none) (fun _ => 0)
          [⟨"000001.SZ", some 50⟩]).getD 0 dfltOut).alpha_ds = 0 ∧
      ((score ⟨true, 1200, 20, "k1", "k2"⟩ (fun _ => .err "timed out")
          (fun _ => .content none) (fun _ => 0)
          [⟨"000001.SZ", some 50⟩]).getD 0 dfltOut).risk_prob_ds =
        volDefaultProb [⟨"000001.SZ", some 50⟩] ∧
      ((score ⟨true, 1200, 20, "k1", "k2"⟩ (fun _ => .err "timed out")
          (fun _ => .content none) (fun _ => 0)
          [⟨"000001.SZ", some 50⟩]).getD 0 dfltOut).risk_sev_ds = 2 ∧
      ((score ⟨true, 1200, 20, "k1", "k2"⟩ (fun _ => .err "timed out")
          (fun _ => .content none) (fun _ => 0)
          [⟨"000001.SZ", some 50⟩]).getD 0 dfltOut).conf_ds = 1 / 2 ∧
      ((score ⟨true, 1200, 20, "k1", "k2"⟩ (fun _ => .err "timed out")
          (fun _ => .content none) (fun _ => 0)
          [⟨"000001.SZ", some 50⟩]).getD 0 dfltOut).comment_ds =
        dsDegradedComment (OracleReply.err "timed out") ∧
      ((score ⟨true, 1200, 20, "k1", "k2"⟩ (fun _ => .err "timed out")
          (fun _ => .content none) (fun _ => 0)
          [⟨"000001.SZ", some 50⟩]).getD 0 dfltOut).comment_ds ≠ "") ∧
    (degradedReply (OracleReply.content none) = true →
      ((score ⟨true, 1200, 20, "k1", "k2"⟩ (fun _ => .err "timed out")
          (fun _ => .content none) (fun _ => 0)
          [⟨"000001.SZ", some 50⟩]).getD 0 dfltOut).alpha_qw = 0 ∧
      ((score ⟨true, 1200, 20, "k1", "k2"⟩ (fun _ => .err "timed out")
          (fun _ => .content none) (fun _ => 0)
          [⟨"000001.SZ", some 50⟩]).getD 0 dfltOut).risk_prob_qw =
        volDefaultProb [⟨"000001.SZ", some 50⟩] ∧
      ((score ⟨true, 1200, 20, "k1", "k2"⟩ (fun _ => .err "timed out")
          (fun _ => .content none) (fun _ => 0)
          [⟨"000001.SZ", some 50⟩]).getD 0 dfltOut).risk_sev_qw = 2 ∧
      ((score ⟨true, 1200, 20, "k1", "k2"⟩ (fun _ => .err "timed out")
          (fun _ => .content none) (fun _ => 0)
          [⟨"000001.SZ", some 50⟩]).getD 0 dfltOut).conf_qw = 1 / 2 ∧
      ((score ⟨true, 1200, 20, "k1", "k2"⟩ (fun _ => .err "timed out")
          (fun _ => .content none) (fun _ => 0)
          [⟨"000001.SZ", some 50⟩]).getD 0 dfltOut).comment_qw =
        qwDegradedComment (OracleReply.content none) ∧
      ((score ⟨true, 1200, 20, "k1", "k2"⟩ (fun _ => .err "timed out")
          (fun _ => .content none) (fun _ => 0)
          [⟨"000001.SZ", some 50⟩]).getD 0 dfltOut).comment_qw ≠ "") ∧
    ((score ⟨true, 1200, 20, "k1", "k2"⟩ (fun _ => .err "timed out")
        (fun _ => .content none) (fun _ => 0)
        [⟨"000001.SZ", some 50⟩]).getD 0 dfltOut).action = "OK" ∧
    (score ⟨true, 1200, 20, "k1", "k2"⟩ (fun _ => .err "timed out")
        (fun _ => .content none) (fun _ => 0)
        [⟨"000001.SZ", some 50⟩]).length =
      [(⟨"000001.SZ", some 50⟩ : ScoreInRow)].length :=
  C5_oracle_failure_amended ⟨true, 1200, 20, "k1", "k2"⟩
    (fun _ => .err "timed out") (fun _ => .content none) (fun _ => 0)
    [⟨"000001.SZ", some 50⟩] 0 rfl (by decide) (by decide)
    (by decide) (by decide)

/-- The disagreement formula exactly as claim C7 words it: a weighted
combination of the normalized alpha gap, the risk-probability gap and the
(range-normalized) severity gap, clamped to [0,1]. -/
def specDisagreement (w1 w2 w3 aGap pGap sGap : ℚ) : ℚ :=
  clamp (w1 * aGap + w2 * pGap + w3 * sGap) 0 1

/-- Claim C7's disagreement clause as a proposition: for SOME fixed
positive weights, every scored instrument's disagreement equals the
weighted clamped combination of its three per-oracle gaps (alpha gap
normalized by the [-3,3] range width 6, severity gap by the ordinal range
width 4).  Restricted to runs with both API keys present, so the refutation
targets the formula rather than the degenerate missing-key early return. -/
def C7DisagreementClaim : Prop :=
  ∃ w1 w2 w3 : ℚ, 0 < w1 ∧ 0 < w2 ∧ 0 < w3 ∧
    ∀ (cfg : DualHeadCfg) (ds qw : ℕ → OracleReply) (elapsed : ℕ → ℚ)
      (rows : List ScoreInRow) (n : ℕ), n < rows.length →
      ¬ cfg.ds_key = "" → ¬ cfg.qw_key = "" →
      ((score cfg ds qw elapsed rows).getD n dfltOut).disagreement =
        some (specDisagreement w1 w2 w3
          (qabs (((score cfg ds qw elapsed rows).getD n dfltOut).alpha_ds -
            ((score cfg ds qw elapsed rows).getD n dfltOut).alpha_qw) / 6)
          (qabs (((score cfg ds qw elapsed rows).getD n dfltOut).risk_prob_ds -
            ((score cfg ds qw elapsed rows).getD n dfltOut).risk_prob_qw))
          (qabs ((((score cfg ds qw elapsed rows).getD n dfltOut).risk_sev_ds : ℚ) -
            (((score cfg ds qw elapsed rows).getD n dfltOut).risk_sev_qw : ℚ)) / 4))

/-- C7 counterexample: the code's disagreement ignores the risk-probability
and severity gaps.  On a batch where the two oracles return equal alphas
(gap 0) but maximally different risk probabilities (0 vs 1), the code's
disagreement is 0 while any weighted combination with positive weights is
positive — so no positive weighting satisfies the claim. -/
theorem C7_counterexample : ¬ C7DisagreementClaim := by
  rintro ⟨w1, w2, w3, hw1, hw2, hw3, hall⟩
  have h := hall ⟨true, 1200, 20, "k1", "k2"⟩
    (fun _ => .content (some ⟨some 0, some 0, some 1, some 1, some "a"⟩))
    (fun _ => .content (some ⟨some 0, some 1, some 1, some 1, some "b"⟩))
    (fun _ => 0) [⟨"000001.SZ", some 0⟩] 0 (by decide) (by decide) (by decide)
  have hrow := score_getD_enabled ⟨true, 1200, 20, "k1", "k2"⟩
    (fun _ => .content (some ⟨some 0, some 0, some 1, some 1, some "a"⟩))
    (fun _ => .content (some ⟨some 0, some 1, some 1, some 1, some "b"⟩))
    (fun _ => 0) [⟨"000001.SZ", some 0⟩] 0 (by decide) rfl (by decide) (by decide)
  rw [if_pos (by decide)] at hrow
  rw [hrow] at h
  have hd : (withFinals (applyQW
      (.content (some ⟨some 0, some 1, some 1, some 1, some "b"⟩))
      (applyDS (.content (some ⟨some 0, some 0, some 1, some 1, some "a"⟩))
        (placeholderRow (volDefaultProb [⟨"000001.SZ", some 0⟩])
          ([(⟨"000001.SZ", some 0⟩ : ScoreInRow)].getD 0 dfltIn))))).disagreement =
      some 0 := by
    norm_num [withFinals, applyDS, applyQW, placeholderRow, volDefaultProb,
      clamp, qmin, qmax, qabs, dfltIn]
  have hads : (withFinals (applyQW
      (.content (some ⟨some 0, some 1, some 1, some 1, some "b"⟩))
      (applyDS (.content (some ⟨some 0, some 0, some 1, some 1, some "a"⟩))
        (placeholderRow (volDefaultProb [⟨"000001.SZ", some 0⟩])
          ([(⟨"000001.SZ", some 0⟩ : ScoreInRow)].getD 0 dfltIn))))).alpha_ds = 0 ∧
      (withFinals (applyQW
      (.content (some ⟨some 0, some 1, some 1, some 1, some "b"⟩))
      (applyDS (.content (some ⟨some 0, some 0, some 1, some 1, some "a"⟩))
        (placeholderRow (volDefaultProb [⟨"000001.SZ", some 0⟩])
          ([(⟨"000001.SZ", some 0⟩ : ScoreInRow)].getD 0 dfltIn))))).alpha_qw = 0 ∧
      (withFinals (applyQW
      (.content (some ⟨some 0, some 1, some 1, some 1, some "b"⟩))
      (applyDS (.content (some ⟨some 0, some 0, some 1, some 1, some "a"⟩))
        (placeholderRow (volDefaultProb [⟨"000001.SZ", some 0⟩])
          ([(⟨"000001.SZ", some 0⟩ : ScoreInRow)].getD 0 dfltIn))))).risk_prob_ds = 0 ∧
      (withFinals (applyQW
      (.content (some ⟨some 0, some 1, some 1, some 1, some "b"⟩))
      (applyDS (.content (some ⟨some 0, some 0, some 1, some 1, some "a"⟩))
        (placeholderRow (volDefaultProb [⟨"000001.SZ", some 0⟩])
          ([(⟨"000001.SZ", some 0⟩ : ScoreInRow)].getD 0 dfltIn))))).risk_prob_qw = 1 ∧
      (withFinals (applyQW
      (.content (some ⟨some 0, some 1, some 1, some 1, some "b"⟩))
      (applyDS (.content (some ⟨some 0, some 0, some 1, some 1, some "a"⟩))
        (placeholderRow (volDefaultProb [⟨"000001.SZ", some 0⟩])
          ([(⟨"000001.SZ", some 0⟩ : ScoreInRow)].getD 0 dfltIn))))).risk_sev_ds = 1 ∧
      (withFinals (applyQW
      (.content (some ⟨some 0, some 1, some 1, some 1, some "b"⟩))
      (applyDS (.content (some ⟨some 0, some 0, some 1, some 1, some "a"⟩))
        (placeholderRow (volDefaultProb [⟨"000001.SZ", some 0⟩])
          ([(⟨"000001.SZ", some 0⟩ : ScoreInRow)].getD 0 dfltIn))))).risk_sev_qw = 1 := by
    refine ⟨?_, ?_, ?_, ?_, ?_, ?_⟩ <;>
      norm_num [withFinals, applyDS, applyQW, placeholderRow, volDefaultProb,
        clamp, qmin, qmax, dfltIn]
  rcases hads with ⟨h1, h2, h3, h4, h5, h6⟩
  rw [hd, h1, h2, h3, h4, h5, h6] at h
  have heq := Option.some.inj h
  have hval : specDisagreement w1 w2 w3 (qabs ((0:ℚ) - 0) / 6)
      (qabs ((0:ℚ) - 1)) (qabs (((1:ℤ):ℚ) - ((1:ℤ):ℚ)) / 4) = clamp w2 0 1 := by
    norm_num [specDisagreement, qabs]
  rw [hval] at heq
  have hpos : 0 < clamp w2 0 1 := by
    rw [clamp, qmax_eq_max, qmin_eq_min]
    have hmin : 0 < min 1 w2 := lt_min (by norm_num) hw2
    exact lt_of_lt_of_le hmin (le_max_right 0 _)
  rw [← heq] at hpos
  exact lt_irrefl 0 hpos

theorem applyDS_alpha_ds_bounds (rep : OracleReply) (b : ScoreOutRow)
    (hb : -3 ≤ b.alpha_ds ∧ b.alpha_ds ≤ 3) :
    -3 ≤ (applyDS rep b).alpha_ds ∧ (applyDS rep b).alpha_ds ≤ 3 := by
  cases rep with
  | err msg => simpa [applyDS] using hb
  | content obj =>
    cases obj with
    | none => simpa [applyDS] using hb
    | some o =>
      constructor
      · simpa [applyDS] using lo_le_clamp (o.alpha.getD 0) (-3) 3
      · simpa [applyDS] using clamp_le_hi (o.alpha.getD 0) (-3) 3 (by norm_num)

theorem applyDS_alpha_qw_eq (rep : OracleReply) (b : ScoreOutRow) :
    (applyDS rep b).alpha_qw = b.alpha_qw := by
  cases rep with
  | err msg => simp [applyDS]
  | content obj => cases obj <;> simp [applyDS]

theorem applyQW_alpha_ds_eq (rep : OracleReply) (b : ScoreOutRow) :
    (applyQW rep b).alpha_ds = b.alpha_ds := by
  cases rep with
  | err msg => simp [applyQW]
  | content obj => cases obj <;> simp [applyQW]

theorem applyQW_alpha_qw_bounds (rep : OracleReply) (b : ScoreOutRow)
    (hb : -3 ≤ b.alpha_qw ∧ b.alpha_qw ≤ 3) :
    -3 ≤ (applyQW rep b).alpha_qw ∧ (applyQW rep b).alpha_qw ≤ 3 := by
  cases rep with
  | err msg => simpa [applyQW] using hb
  | content obj =>
    cases obj with
    | none => simpa [applyQW] using hb
    | some o =>
      constructor
      · simpa [applyQW] using lo_le_clamp (o.alpha.getD 0) (-3) 3
      · simpa [applyQW] using clamp_le_hi (o.alpha.getD 0) (-3) 3 (by norm_num)

/-- C7 (amended): whenever the reconciled final columns exist at all (the
engine is disabled, or enabled with both API keys present — the
missing-key early return creates no final columns), every scored
instrument's output satisfies: final alpha = the two-value median (mean)
of the per-oracle alphas clamped to [-3,3]; final risk probability = the
maximum of the two clamped to [0,1]; final severity = the maximum of the
two; and disagreement = the normalized alpha gap |alpha_ds - alpha_qw| / 6
alone — the risk-probability and severity gaps do not enter — which always
lies in [0,1]. -/
theorem C7_ensemble_finals_amended (cfg : DualHeadCfg)
    (ds qw : ℕ → OracleReply) (elapsed : ℕ → ℚ) (rows : List ScoreInRow)
    (n : ℕ) (hn : n < rows.length)
    (hk : cfg.enabled = false ∨ (¬ cfg.ds_key = "" ∧ ¬ cfg.qw_key = "")) :
    ∃ o : ScoreOutRow, (score cfg ds qw elapsed rows).getD n dfltOut = o ∧
      o.alpha_final = some (clamp (median2 o.alpha_ds o.alpha_qw) (-3) 3) ∧
      o.risk_prob_final = some (clamp (qmax o.risk_prob_ds o.risk_prob_qw) 0 1) ∧
      o.risk_sev_final = some (max o.risk_sev_ds o.risk_sev_qw) ∧
      o.disagreement = some (qabs (o.alpha_ds - o.alpha_qw) / 6) ∧
      ∀ d, o.disagreement = some d → 0 ≤ d ∧ d ≤ 1 := by
  have key : ∃ b : ScoreOutRow,
      (score cfg ds qw elapsed rows).getD n dfltOut = withFinals b ∧
      -3 ≤ b.alpha_ds ∧ b.alpha_ds ≤ 3 ∧ -3 ≤ b.alpha_qw ∧ b.alpha_qw ≤ 3 := by
    have hplaceholder : ∀ dprob r,
        -3 ≤ (placeholderRow dprob r).alpha_ds ∧
        (placeholderRow dprob r).alpha_ds ≤ 3 ∧
        -3 ≤ (placeholderRow dprob r).alpha_qw ∧
        (placeholderRow dprob r).alpha_qw ≤ 3 := by
      intro dprob r
      refine ⟨?_, ?_, ?_, ?_⟩ <;> norm_num [placeholderRow]
    rcases hk with hdis | ⟨h1, h2⟩
    · refine ⟨_, score_getD_disabled cfg ds qw elapsed rows n hn hdis, ?_⟩
      obtain ⟨a1, a2, a3, a4⟩ := hplaceholder (volDefaultProb rows) (rows.getD n dfltIn)
      exact ⟨a1, a2, a3, a4⟩
    · cases hen : cfg.enabled with
      | false =>
        refine ⟨_, score_getD_disabled cfg ds qw elapsed rows n hn hen, ?_⟩
        obtain ⟨a1, a2, a3, a4⟩ := hplaceholder (volDefaultProb rows) (rows.getD n dfltIn)
        exact ⟨a1, a2, a3, a4⟩
      | true =>
        rw [score_getD_enabled cfg ds qw elapsed rows n hn hen h1 h2]
        by_cases hproc : n < workCount cfg rows.length ∧
            brokeBefore elapsed cfg.budget_sec n = false
        · rw [if_pos hproc]
          obtain ⟨a1, a2, a3, a4⟩ := hplaceholder (volDefaultProb rows) (rows.getD n dfltIn)
          have hds := applyDS_alpha_ds_bounds (ds n) _ ⟨a1, a2⟩
          have hqds : (applyQW (qw n) (applyDS (ds n)
              (placeholderRow (volDefaultProb rows) (rows.getD n dfltIn)))).alpha_ds =
              (applyDS (ds n) (placeholderRow (volDefaultProb rows) (rows.getD n dfltIn))).alpha_ds :=
            applyQW_alpha_ds_eq (qw n) _
          have hqw := applyQW_alpha_qw_bounds (qw n)
            (applyDS (ds n) (placeholderRow (volDefaultProb rows) (rows.getD n dfltIn)))
            (by rw [applyDS_alpha_qw_eq]; exact ⟨a3, a4⟩)
          refine ⟨_, rfl, ?_, ?_, hqw.1, hqw.2⟩
          · rw [hqds]; exact hds.1
          · rw [hqds]; exact hds.2
        · rw [if_neg hproc]
          obtain ⟨a1, a2, a3, a4⟩ := hplaceholder (volDefaultProb rows) (rows.getD n dfltIn)
          exact ⟨_, rfl, a1, a2, a3, a4⟩
  obtain ⟨b, hb, ha1, ha2, ha3, ha4⟩ := key
  refine ⟨withFinals b, hb, ?_, ?_, ?_, ?_, ?_⟩
  · simp [withFinals]
  · simp [withFinals]
  · simp [withFinals]
  · simp [withFinals]
  · intro d hd
    have hd' : d = qabs (b.alpha_ds - b.alpha_qw) / 6 := by
      simp only [withFinals] at hd
      exact (Option.some.inj hd).symm
    subst hd'
    rw [qabs_eq_abs]
    constructor
    · positivity
    · rw [div_le_one (by norm_num)]
      rw [abs_le]
      constructor <;> linarith

/-- C7 witness: the amended theorem applied at a concrete disabled-engine
run (one instrument), where the finals reduce to the placeholder columns. -/
theorem C7_ensemble_finals_amended_witness :
    ∃ o : ScoreOutRow,
      (score ⟨false, 0, 0, "", ""⟩ (fun _ => .err "x") (fun _ => .err "x")
          (fun _ => 0) [⟨"000001.SZ", none⟩]).getD 0 dfltOut = o ∧
      o.alpha_final = some (clamp (median2 o.alpha_ds o.alpha_qw) (-3) 3) ∧
      o.risk_prob_final = some (clamp (qmax o.risk_prob_ds o.risk_prob_qw) 0 1) ∧
      o.risk_sev_final = some (max o.risk_sev_ds o.risk_sev_qw) ∧
      o.disagreement = some (qabs (o.alpha_ds - o.alpha_qw) / 6) ∧
      ∀ d, o.disagreement = some d → 0 ≤ d ∧ d ≤ 1 :=
  C7_ensemble_finals_amended ⟨false, 0, 0, "", ""⟩ (fun _ => .err "x")
    (fun _ => .err "x") (fun _ => 0) [⟨"000001.SZ", none⟩] 0 (by decide)
    (Or.inl rfl)

/-- One daily-bars row as consumed by `apply_universe_filters`
(`src/engine/filters.py`): the instrument code and the two market-cap
columns (`none` models NaN). -/
structure BarRow where
  ts_code : String
  total_mv : Option ℚ
  circ_mv : Option ℚ
deriving DecidableEq

/-- An output row of `apply_universe_filters`: a surviving bar row plus the
`universe_flag` column the filter appends. -/
structure UniRow where
  row : BarRow
  universe_flag : ℤ
deriving DecidableEq

/-- The code part before the first "."
(`codes.str.split(".", n=1).str[0]`). -/
def pureCode (code : String) : String :=
  String.mk (code.toList.takeWhile (fun c => c ≠ '.'))

/-- True when the pure code starts with one of the excluded code
segments (`any(str(x).startswith(p) for p in exclude_prefixes)`). -/
def matchesExcluded (ps : List String) (code : String) : Bool :=
  ps.any (fun p => strStartsWith (pureCode code) p)

/-- True when the upper-cased code ends with the Beijing-exchange suffix
(`codes.str.upper().str.endswith(".BJ")`). -/
def isBJ (code : String) : Bool := strEndsWith (strToUpper code) ".BJ"

/-- Whether a row passes the market-cap ceiling: no ceiling configured, or
no cap column present, or the selected cap column (`total_mv`, falling back
to `circ_mv`) holds a non-NaN value at most the ceiling
(`mv.notna() & (mv <= max_total_mv)`). -/
def capPassesB (mtv : Option ℚ) (hasTotal hasCirc : Bool) (r : BarRow) : Bool :=
  match mtv with
  | none => true
  | some m =>
    if hasTotal then
      match r.total_mv with
      | none => false
      | some v => v ≤ m
    else if hasCirc then
      match r.circ_mv with
      | none => false
      | some v => v ≤ m
    else true

/-- Embedding of `apply_universe_filters` from `src/engine/filters.py`: prefix and BJ
exclusion drop rows; the market-cap ceiling (when configured and a cap
column exists) drops rows with missing or too-large caps; the survivors
get `universe_flag = 1`.  `hasTotal` / `hasCirc` model which cap columns
the frame has. -/
def apply_universe_filters (rows : List BarRow) (excluded : List String)
    (exclude_bj : Bool) (max_total_mv : Option ℚ) (hasTotal hasCirc : Bool) :
    List UniRow :=
  let pass1 := rows.filter (fun r =>
    !(matchesExcluded excluded r.ts_code) &&
      (!exclude_bj || !(isBJ r.ts_code)))
  let pass2 :=
    match max_total_mv with
    | none => pass1
    | some m =>
      if hasTotal then
        pass1.filter (fun r =>
          match r.total_mv with
          | none => false
          | some v => v ≤ m)
      else if hasCirc then
        pass1.filter (fun r =>
          match r.circ_mv with
          | none => false
          | some v => v ≤ m)
      else pass1
  pass2.map (fun r => ⟨r, 1⟩)

/-- C6 counterexample: a one-row frame whose code matches the default
excluded segment "300" comes back EMPTY from `apply_universe_filters` —
the excluded row is dropped, not retained with `universe_flag = 0` and a
filter-reason tag (no such tag exists anywhere in the filter), so no Pick
row is ever written for it either. -/
theorem C6_counterexample :
    apply_universe_filters [⟨"300001.SZ", some 100, none⟩]
      ["300", "301", "688", "689"] true none true false = [] := by
  decide

/-- C6 (amended): a row appears in the output of `apply_universe_filters`
iff it passes all three hard filters, and then always with
`universe_flag = 1`; consequently every instrument matching an excluded
code segment, carrying the BJ suffix (when BJ exclusion is on), or failing
the cap ceiling is absent from the filtered universe — rather than
retained with flag 0 — and the night job, which feeds only the filtered
universe onward, writes no Pick row for it at all. -/
theorem C6_universe_filter_amended (rows : List BarRow)
    (excluded : List String) (exclude_bj : Bool) (mtv : Option ℚ)
    (hasTotal hasCirc : Bool) (u : UniRow) :
    u ∈ apply_universe_filters rows excluded exclude_bj mtv hasTotal hasCirc ↔
      (u.universe_flag = 1 ∧ u.row ∈ rows ∧
        matchesExcluded excluded u.row.ts_code = false ∧
        (exclude_bj = true → isBJ u.row.ts_code = false) ∧
        capPassesB mtv hasTotal hasCirc u.row = true) := by
  obtain ⟨ur, uf⟩ := u
  have hmap : ∀ (l : List BarRow),
      ((⟨ur, uf⟩ : UniRow) ∈ l.map (fun r => (⟨r, 1⟩ : UniRow))) ↔
        uf = 1 ∧ ur ∈ l := by
    intro l
    rw [List.mem_map]
    constructor
    · rintro ⟨r, hr, heq⟩
      rw [UniRow.mk.injEq] at heq
      exact ⟨heq.2.symm, heq.1 ▸ hr⟩
    · rintro ⟨h1, h2⟩
      exact ⟨ur, h2, by rw [UniRow.mk.injEq]; exact ⟨rfl, h1.symm⟩⟩
  have hpass1 : ∀ r : BarRow,
      (r ∈ rows.filter (fun r =>
        !(matchesExcluded excluded r.ts_code) &&
          (!exclude_bj || !(isBJ r.ts_code)))) ↔
        (r ∈ rows ∧ matchesExcluded excluded r.ts_code = false ∧
          (exclude_bj = true → isBJ r.ts_code = false)) := by
    intro r
    rw [List.mem_filter]
    simp only [Bool.and_eq_true, Bool.not_eq_true', Bool.or_eq_true]
    constructor
    · rintro ⟨hr, h1, h2⟩
      refine ⟨hr, h1, fun hbj => ?_⟩
      rcases h2 with h | h
      · rw [hbj] at h
        exact Bool.noConfusion h
      · exact h
    · rintro ⟨hr, h1, h2⟩
      refine ⟨hr, h1, ?_⟩
      cases hbj : exclude_bj with
      | false => exact Or.inl rfl
      | true => exact Or.inr (h2 hbj)
  have hcap : ∀ (r : BarRow) (l : List BarRow),
      (r ∈ (match mtv with
            | none => l
            | some m =>
              if hasTotal then
                l.filter (fun r =>
                  match r.total_mv with
                  | none => false
                  | some v => v ≤ m)
              else if hasCirc then
                l.filter (fun r =>
                  match r.circ_mv with
                  | none => false
                  | some v => v ≤ m)
              else l)) ↔
        (r ∈ l ∧ capPassesB mtv hasTotal hasCirc r = true) := by
    intro r l
    rcases mtv with _ | m
    · simp [capPassesB]
    · cases hasTotal <;> cases hasCirc <;>
        simp [capPassesB, List.mem_filter]
  show (⟨ur, uf⟩ : UniRow) ∈ apply_universe_filters rows excluded exclude_bj mtv hasTotal hasCirc ↔ _
  unfold apply_universe_filters
  rw [hmap, hcap, hpass1]
  tauto

/-- Embedding of `normalize_trade_date` from `src/utils/trade_date.py` (with the
default "-" separator): strip, blank → "", 8 digits (dashes removed) →
canonical `YYYY-MM-DD`, anything else unchanged. -/
def normalize_trade_date (v : String) : String :=
  let s := strTrim v
  if s = "" then ""
  else
    let digits := s.toList.filter (fun c => c ≠ '-')
    if digits.length = 8 ∧ digits.all Char.isDigit then
      String.mk (digits.take 4) ++ "-" ++ String.mk ((digits.drop 4).take 2) ++
        "-" ++ String.mk (digits.drop 6)
    else s

/-- The on-disk state of `bridge/outbox/orders.csv` as `_orders_gate` sees
it: absent, unreadable, or readable with parsed CSV records (first record
is the header the gate drops). -/
inductive OrdersCsv where
  | missing
  | unreadable
  | readable (records : List (List String))
deriving DecidableEq

/-- Count of non-blank data rows: header dropped, a row counts when any
cell is non-blank after strip. -/
def ordersDataRows (records : List (List String)) : ℕ :=
  ((records.drop 1).filter (fun row => row.any (fun cell => strTrim cell ≠ ""))).length

/-- Embedding of `_orders_gate` from `src/bridge/reconciliation.py`:
`(ok, reason, rows)`; path and count interpolation in the reason strings
is omitted. -/
def orders_gate (f : OrdersCsv) : Bool × String × ℕ :=
  match f with
  | .missing => (false, "orders.csv missing", 0)
  | .unreadable => (false, "orders.csv unreadable", 0)
  | .readable recs =>
    let n := ordersDataRows recs
    if n = 0 then (false, "orders.csv has no data rows", n)
    else (true, "orders.csv rows", n)

/-- The reconcile status object (`trade_date`, `ok`, `reason`, `run_id`,
`ts`) written to `data/manual/reconcile_status.json`. -/
structure ReconcileStatus where
  trade_date : String
  ok : Bool
  reason : String
  run_id : String
  ts : String
deriving DecidableEq

/-- Embedding of `build_reconcile_status`: normalized trade date (falling back to the
raw argument when normalization is blank), the orders-gate verdict, run id
("" when absent) and a timestamp (passed in, as wall clock is external). -/
def build_reconcile_status (trade_date : String) (run_id : Option String)
    (f : OrdersCsv) (now : String) : ReconcileStatus :=
  let td := normalize_trade_date trade_date
  { trade_date := if td ≠ "" then td else (if trade_date ≠ "" then trade_date else "")
    ok := (orders_gate f).1
    reason := (orders_gate f).2.1
    run_id := run_id.getD ""
    ts := now }

/-- The on-disk state of `reconcile_status.json` for
`check_reconcile_status`. -/
inductive StatusFile where
  | missing
  | unreadable
  | parsed (s : ReconcileStatus)
deriving DecidableEq

/-- Embedding of `check_reconcile_status` from `src/bridge/reconciliation.py`:
`(ok, reason)`; blocks when the file is absent, unreadable, carries no
trade date, a mismatched trade date, or `ok = false`. -/
def check_reconcile_status (trade_date : String) (f : StatusFile) :
    Bool × String :=
  match f with
  | .missing => (false, "reconcile_status.json missing")
  | .unreadable => (false, "reconcile_status.json unreadable")
  | .parsed s =>
    let target_td := normalize_trade_date trade_date
    let stored_raw := strTrim s.trade_date
    let stored_td := if stored_raw ≠ "" then normalize_trade_date stored_raw else ""
    if stored_td = "" then (false, "reconcile_status.json missing trade_date")
    else if target_td ≠ "" ∧ stored_td ≠ "" ∧ stored_td ≠ target_td then
      (false, "trade_date mismatch")
    else if s.ok = false then
      (false, "reconcile_status not OK: " ++
        (if s.reason ≠ "" then s.reason else "reconcile_status ok=false"))
    else (true, s.reason)

/-- The structured exit of `_exit_payload` in `scripts/safe_run.py`:
machine-readable reason plus the non-zero process exit code. -/
structure ExitPayload where
  reason : String
  code : ℕ
deriving DecidableEq

/-- Embedding of `ensure_reconcile_ok` from `scripts/safe_run.py`: proceed (`none`) when
the status checks out, else exit with reason `RECONCILE_STATUS_BLOCK` and
code 3. -/
def ensure_reconcile_ok (trade_date : String) (f : StatusFile) :
    Option ExitPayload :=
  if (check_reconcile_status trade_date f).1 then none
  else some ⟨"RECONCILE_STATUS_BLOCK", 3⟩

/-- C10: the reconciliation status writer reports `ok = false` not only for
a missing or unreadable orders file but also whenever `orders.csv` exists
with zero (non-blank) data rows; a run that legitimately produced no orders
therefore writes a status object that makes the next morning's pre-market
gate exit with reason `RECONCILE_STATUS_BLOCK` and non-zero code 3.
(The trade-date hypotheses — normalization is non-blank, trim- and
normalization-stable — hold for every real date string and are discharged
concretely in the witness.) -/
theorem C10_empty_orders_block (td rid now : String)
    (recs : List (List String)) (hrows : ordersDataRows recs = 0)
    (h1 : normalize_trade_date td ≠ "")
    (h2 : strTrim (normalize_trade_date td) = normalize_trade_date td)
    (h3 : normalize_trade_date (normalize_trade_date td) = normalize_trade_date td) :
    (build_reconcile_status td (some rid) (.readable recs) now).ok = false ∧
    (build_reconcile_status td (some rid) (.readable recs) now).reason =
      "orders.csv has no data rows" ∧
    ensure_reconcile_ok td
        (.parsed (build_reconcile_status td (some rid) (.readable recs) now)) =
      some ⟨"RECONCILE_STATUS_BLOCK", 3⟩ ∧
    (3 : ℕ) ≠ 0 ∧
    (build_reconcile_status td (some rid) OrdersCsv.missing now).ok = false ∧
    (build_reconcile_status td (some rid) OrdersCsv.unreadable now).ok = false := by
  have hgate : orders_gate (.readable recs) =
      (false, "orders.csv has no data rows", ordersDataRows recs) := by
    unfold orders_gate
    dsimp only
    rw [if_pos hrows]
  have hst : build_reconcile_status td (some rid) (.readable recs) now =
      { trade_date := normalize_trade_date td
        ok := false
        reason := "orders.csv has no data rows"
        run_id := rid
        ts := now } := by
    unfold build_reconcile_status
    rw [hgate]
    simp only [if_pos h1, Option.getD_some]
  refine ⟨?_, ?_, ?_, by decide, ?_, ?_⟩
  · rw [hst]
  · rw [hst]
  · rw [hst]
    simp [ensure_reconcile_ok, check_reconcile_status, h2, h3, h1]
  · unfold build_reconcile_status orders_gate
    simp
  · unfold build_reconcile_status orders_gate
    simp

/-- C10 witness: the theorem applied at trade date "2025-01-06" with an
orders file holding only a header and one all-blank row. -/
theorem C10_empty_orders_block_witness :
    ordersDataRows [["client_order_id", "side"], ["", "  "]] = 0 ∧
      ((build_reconcile_status "2025-01-06" (some "R1")
          (.readable [["client_order_id", "side"], ["", "  "]]) "T").ok = false ∧
        (build_reconcile_status "2025-01-06" (some "R1")
          (.readable [["client_order_id", "side"], ["", "  "]]) "T").reason =
          "orders.csv has no data rows" ∧
        ensure_reconcile_ok "2025-01-06"
            (.parsed (build_reconcile_status "2025-01-06" (some "R1")
              (.readable [["client_order_id", "side"], ["", "  "]]) "T")) =
          some ⟨"RECONCILE_STATUS_BLOCK", 3⟩ ∧
        (3 : ℕ) ≠ 0 ∧
        (build_reconcile_status "2025-01-06" (some "R1") OrdersCsv.missing "T").ok = false ∧
        (build_reconcile_status "2025-01-06" (some "R1") OrdersCsv.unreadable "T").ok = false) :=
  ⟨by decide,
    C10_empty_orders_block "2025-01-06" "R1" "T"
      [["client_order_id", "side"], ["", "  "]] (by decide) (by decide)
      (by decide) (by decide)⟩

/-- C9: the money comparator at its default tolerances satisfies the three
evaluations stated in the spec: `isclose_money(100.00, 99.999999)` is true,
`isclose_money(100.00, 99.98, abs_tol=0.01)` is false, and
`isclose_money(0.1+0.2, 0.3)` is true — the operands being the exact
IEEE-754 doubles those Python literals denote. -/
theorem C9_isclose_money_examples :
    isclose_money 100 fp99_999999 moneyRelTol moneyAbsTol = true ∧
    isclose_money 100 fp99_98 moneyRelTol moneyAbsTol = false ∧
    isclose_money fpSum01_02 fp0_3 moneyRelTol moneyAbsTol = true := by
  refine ⟨?_, ?_, ?_⟩ <;>
    norm_num [isclose_money, isclose, qabs, qmax, moneyRelTol, moneyAbsTol,
      fp99_999999, fp99_98, fpSum01_02, fp0_3]

/-- C8 counterexample: at `expected = -100`, `real = 0` with the default
(enabled) configuration, `asset_check` flags failure, yet the claim's
condition does not hold there: `|0 - (-100)| / (-100) = -1` does not exceed
`max_dev = 0.05` (and the values are not money-close either), so the claim
"flags failure iff deviation exceeds the maximum and the values are not
close" is false at this input. -/
theorem C8_counterexample :
    (asset_check (some (-100)) 0 defaultAssetCheckCfg).1 = false ∧
    ¬ claimC8DevExceeds (-100) 0 defaultAssetCheckCfg.max_total_asset_dev ∧
    isclose_money (-100) 0 defaultAssetCheckCfg.rel_tol defaultAssetCheckCfg.abs_tol = false := by
  refine ⟨?_, ?_, ?_⟩ <;>
    norm_num [asset_check, claimC8DevExceeds, defaultAssetCheckCfg,
      isclose_money, isclose, qabs, qmax]

/-- C8 (amended): with the check enabled and a finite expected figure,
`asset_check` flags failure if and only if `|real - expected| / |expected|`
(the absolute value of the code's signed deviation ratio) exceeds the
configured maximum AND the two figures are not close under the money-tolerant
comparator.  (On `ℚ`, division by zero yields `0`, which matches the source's
explicit `dev_ratio = 0` sentinel for `expected == 0`.) -/
theorem C8_asset_check_amended (e real : ℚ) (cfg : AssetCheckCfg)
    (hen : cfg.enabled = true) :
    (asset_check (some e) real cfg).1 = false ↔
      (qabs (real - e) / qabs e > cfg.max_total_asset_dev ∧
        isclose_money e real cfg.rel_tol cfg.abs_tol = false) := by
  have hcond : ¬ ¬ (cfg.enabled = true) := by simp [hen]
  simp only [asset_check, if_neg hcond]
  by_cases he : e = 0
  · subst he
    simp only [if_pos rfl]
    constructor
    · intro h
      rcases Bool.or_eq_false_iff.mp h with ⟨h1, h2⟩
      refine ⟨?_, h2⟩
      have : ¬ (qabs 0 ≤ cfg.max_total_asset_dev) := by simpa using h1
      have h0 : qabs (0:ℚ) = 0 := by simp [qabs]
      rw [h0] at this
      have hq : qabs (real - 0) / qabs 0 = 0 := by
        simp [qabs_eq_abs]
      rw [hq]
      exact lt_of_not_le this
    · intro ⟨h1, h2⟩
      apply Bool.or_eq_false_iff.mpr
      refine ⟨?_, h2⟩
      have hq : qabs (real - 0) / qabs 0 = 0 := by simp [qabs_eq_abs]
      rw [hq] at h1
      have h0 : qabs (0:ℚ) = 0 := by simp [qabs]
      simp [h0, not_le.mpr h1]
  · simp only [if_neg he]
    have hq : qabs ((real - e) / e) = qabs (real - e) / qabs e := by
      simp [qabs_eq_abs, abs_div]
    constructor
    · intro h
      rcases Bool.or_eq_false_iff.mp h with ⟨h1, h2⟩
      refine ⟨?_, h2⟩
      rw [← hq]
      exact lt_of_not_le (by simpa using h1)
    · intro ⟨h1, h2⟩
      apply Bool.or_eq_false_iff.mpr
      rw [← hq] at h1
      exact ⟨by simpa using not_le.mpr h1, h2⟩

/-- C8 witness: the amended theorem applied at the concrete failing input
`expected = 110`, `real = 100` under the default configuration (deviation
`1/11 ≈ 9.1% > 5%`, not money-close). -/
theorem C8_asset_check_amended_witness :
    defaultAssetCheckCfg.enabled = true ∧
      ((asset_check (some 110) 100 defaultAssetCheckCfg).1 = false ↔
        (qabs ((100:ℚ) - 110) / qabs 110 > defaultAssetCheckCfg.max_total_asset_dev ∧
          isclose_money 110 100 defaultAssetCheckCfg.rel_tol defaultAssetCheckCfg.abs_tol = false)) :=
  ⟨rfl, C8_asset_check_amended 110 100 defaultAssetCheckCfg rfl⟩

/-- BUY notional contributed by an optional emitted order. -/
def emittedBuyNotional : Option Order → ℚ
  | none => 0
  | some o => if o.side = "BUY" then orderNotional o else 0

/-- Invariant relating one rebalance step's output to the cash it started
from: cash never increases, stays nonnegative, the emitted BUY notional is
covered by the cash consumed, and any emitted BUY is a positive whole
number of 100-share lots. -/
def StepOk (cash : ℚ) (s : Option Order × ℚ) : Prop :=
  0 ≤ s.2 ∧ s.2 ≤ cash ∧ emittedBuyNotional s.1 ≤ cash - s.2 ∧
    ∀ o, s.1 = some o → o.side = "BUY" → 0 < o.qty ∧ (100 : ℤ) ∣ o.qty

theorem stepOk_none (cash : ℚ) (h : 0 ≤ cash) : StepOk cash (none, cash) := by
  simp [StepOk, emittedBuyNotional, h]

theorem qmin_le_right (a b : ℚ) : qmin a b ≤ b := by
  unfold qmin
  split
  · exact le_refl b
  · exact le_of_not_le (by assumption)

theorem round_lot_dvd (y : ℚ) : (100 : ℤ) ∣ round_lot y 100 := by
  unfold round_lot
  split
  · exact dvd_zero 100
  · exact dvd_mul_left 100 _

theorem round_lot_cast_le (y : ℚ) (hy : ¬ y ≤ 0) :
    ((round_lot y 100 : ℤ) : ℚ) ≤ y := by
  unfold round_lot
  rw [if_neg hy]
  push_cast
  have h := Int.floor_le (y / 100)
  have h2 : (⌊y / 100⌋ : ℚ) * 100 ≤ (y / 100) * 100 :=
    mul_le_mul_of_nonneg_right h (by norm_num)
  calc (⌊y / 100⌋ : ℚ) * 100 ≤ (y / 100) * 100 := h2
    _ = y := div_mul_cancel₀ y (by norm_num)

theorem rebalanceStep_ok (cfg : PortfolioCfg) (td rid : String)
    (pos : List Position) (px : List PriceRow) (bc held : List String)
    (ta : ℚ) (code : String) (w cash : ℚ) (h : 0 ≤ cash) :
    StepOk cash (rebalanceStep cfg td rid pos px bc held ta code w cash) := by
  unfold rebalanceStep
  by_cases h1 : w ≤ 0
  · simpa [h1] using stepOk_none cash h
  rw [if_neg h1]
  by_cases h2 : code ∉ bc ∧ code ∉ held
  · simpa [h2] using stepOk_none cash h
  rw [if_neg h2]
  rcases hgp : get_price px code with _ | p
  · exact stepOk_none cash h
  dsimp only
  by_cases h3 : p ≤ 0
  · simpa [h3] using stepOk_none cash h
  rw [if_neg h3]
  by_cases h4 : ¬ buyable px code = true
  · simpa [h4] using stepOk_none cash h
  rw [if_neg h4]
  set cur := if code ∈ held then ((posRow pos code).map Position.market_value).getD 0 else 0 with hcur
  set diff := w * ta - cur with hdiff
  by_cases h5 : diff > cfg.min_order_value
  · rw [if_pos h5]
    set bv := qmin diff cash with hbv
    by_cases h6 : bv < cfg.min_order_value
    · simpa [h6] using stepOk_none cash h
    rw [if_neg h6]
    set qty := round_lot (bv / p) 100 with hqty
    by_cases h7 : qty ≤ 0
    · simpa [h7] using stepOk_none cash h
    rw [if_neg h7]
    have hp : 0 < p := lt_of_not_le h3
    have hbvp : ¬ bv / p ≤ 0 := by
      intro hle
      apply h7
      rw [hqty]
      unfold round_lot
      rw [if_pos hle]
    have hle1 : ((qty : ℤ) : ℚ) ≤ bv / p := round_lot_cast_le (bv / p) hbvp
    have hle2 : ((qty : ℤ) : ℚ) * p ≤ bv := by
      have := mul_le_mul_of_nonneg_right hle1 (le_of_lt hp)
      rwa [div_mul_cancel₀ bv (ne_of_gt hp)] at this
    have hbvcash : bv ≤ cash := qmin_le_right diff cash
    refine ⟨?_, ?_, ?_, ?_⟩
    · simp only []
      linarith
    · simp only []
      have hq0 : (0 : ℚ) ≤ (qty : ℚ) * p := by
        apply mul_nonneg _ (le_of_lt hp)
        exact_mod_cast le_of_lt (lt_of_not_le h7)
      linarith
    · simp only [emittedBuyNotional, orderNotional, eq_self_iff_true, if_true,
        Option.getD_some]
      linarith
    · intro o ho _
      simp only [Option.some.injEq] at ho
      subst ho
      exact ⟨lt_of_not_le h7, round_lot_dvd _⟩
  · rw [if_neg h5]
    by_cases h8 : diff < -cfg.min_order_value ∧ code ∈ held
    · rw [if_pos h8]
      by_cases h9 : ¬ sellable px code = true
      · simpa [h9] using stepOk_none cash h
      rw [if_neg h9]
      set amt := intTrunc (((posRow pos code).map Position.amount).getD 0) with hamt
      set qty := min (round_lot (qmin (-diff) ((amt : ℚ) * p)  / p) 100) amt with hqty
      by_cases h10 : qty ≤ 0
      · simpa [h10] using stepOk_none cash h
      rw [if_neg h10]
      refine ⟨h, le_refl cash, ?_, ?_⟩
      · simp only [emittedBuyNotional]
        rw [if_neg (by decide : ¬ ("SELL" = "BUY"))]
        simp
      · intro o ho hside
        simp only [Option.some.injEq] at ho
        subst ho
        exact absurd hside (show ("SELL" : String) ≠ "BUY" by decide)
    · simpa [h8] using stepOk_none cash h

theorem totalBuyNotional_cons (o : Order) (l : List Order) :
    totalBuyNotional (o :: l) =
      (if o.side = "BUY" then orderNotional o else 0) + totalBuyNotional l := by
  by_cases hs : o.side = "BUY" <;> simp [totalBuyNotional, hs]

theorem totalBuyNotional_append (l1 l2 : List Order) :
    totalBuyNotional (l1 ++ l2) = totalBuyNotional l1 + totalBuyNotional l2 := by
  simp [totalBuyNotional, List.filter_append]

theorem totalBuyNotional_of_no_buys (l : List Order)
    (h : ∀ o ∈ l, o.side ≠ "BUY") : totalBuyNotional l = 0 := by
  have : l.filter (fun o => o.side = "BUY") = [] := by
    apply List.filter_eq_nil_iff.mpr
    intro o ho
    simpa using h o ho
  simp [totalBuyNotional, this]

theorem rebalanceLoop_ok (cfg : PortfolioCfg) (td rid : String)
    (pos : List Position) (px : List PriceRow) (bc held : List String)
    (ta : ℚ) (l : List (String × ℚ)) (cash : ℚ) (h : 0 ≤ cash) :
    0 ≤ (rebalanceLoop cfg td rid pos px bc held ta l cash).2 ∧
      totalBuyNotional (rebalanceLoop cfg td rid pos px bc held ta l cash).1 ≤
        cash - (rebalanceLoop cfg td rid pos px bc held ta l cash).2 ∧
      ∀ o ∈ (rebalanceLoop cfg td rid pos px bc held ta l cash).1,
        o.side = "BUY" → 0 < o.qty ∧ (100 : ℤ) ∣ o.qty := by
  induction l generalizing cash with
  | nil =>
    simp [rebalanceLoop, totalBuyNotional, h]
  | cons hd rest ih =>
    rcases hd with ⟨code, w⟩
    have hstep := rebalanceStep_ok cfg td rid pos px bc held ta code w cash h
    rcases hstep with ⟨hs0, hsle, hsbn, hsq⟩
    have hih := ih _ hs0
    rcases hih with ⟨hr0, hrbn, hrq⟩
    simp only [rebalanceLoop]
    rcases hsome : (rebalanceStep cfg td rid pos px bc held ta code w cash).1 with _ | o
    · simp only []
      refine ⟨hr0, ?_, hrq⟩
      have hbn0 : emittedBuyNotional none = 0 := rfl
      rw [hsome] at hsbn
      rw [hbn0] at hsbn
      linarith
    · simp only []
      rw [hsome] at hsbn
      refine ⟨hr0, ?_, ?_⟩
      · rw [totalBuyNotional_cons]
        have : (if o.side = "BUY" then orderNotional o else 0) ≤
            cash - (rebalanceStep cfg td rid pos px bc held ta code w cash).2 := by
          by_cases hside : o.side = "BUY"
          · simpa [emittedBuyNotional, hside] using hsbn
          · rw [if_neg hside]
            linarith
        linarith
      · intro o' ho' hside
        rcases List.mem_cons.mp ho' with h' | h'
        · subst h'
          exact hsq o' hsome hside
        · exact hrq o' h' hside

theorem bufferSellOrders_no_buys (td rid : String) (pos : List Position)
    (px : List PriceRow) (retain : List String) :
    ∀ o ∈ bufferSellOrders td rid pos px retain, o.side ≠ "BUY" := by
  intro o ho
  simp only [bufferSellOrders, List.mem_filterMap] at ho
  obtain ⟨code, _, hcode⟩ := ho
  split_ifs at hcode
  simp only [Option.some.injEq] at hcode
  subst hcode
  exact show ("SELL" : String) ≠ "BUY" by decide

/-- C3: in every `generate_orders` call with nonnegative available cash,
every BUY order's quantity is a positive multiple of the 100-share lot, and
the total BUY notional (Σ qty × limit price) never exceeds
`cash_available`; since the buy loop threads a cash counter that is only
ever decremented, proceeds of SELL orders emitted in the same call are
never added back into buying power (T+1). -/
theorem C3_generate_orders_buy_invariants (cfg : PortfolioCfg)
    (td : String) (picks : List RankedPick) (targets : List TargetRow)
    (pos : List Position) (cash ta : ℚ) (px : List PriceRow) (rid : String)
    (hcash : 0 ≤ cash) :
    (∀ o ∈ generate_orders cfg td picks targets pos cash ta px rid,
        o.side = "BUY" → 0 < o.qty ∧ (100 : ℤ) ∣ o.qty) ∧
      totalBuyNotional (generate_orders cfg td picks targets pos cash ta px rid) ≤
        cash := by
  have hloop := rebalanceLoop_ok cfg td rid pos px (topCodes picks cfg.top_buy)
    (heldList pos) ta (targetMap targets) cash hcash
  rcases hloop with ⟨h0, hbn, hq⟩
  have hsell := bufferSellOrders_no_buys td rid pos px (topCodes picks cfg.top_sell)
  constructor
  · intro o ho hside
    simp only [generate_orders, List.mem_append] at ho
    rcases ho with ho | ho
    · exact absurd hside (hsell o ho)
    · exact hq o ho hside
  · simp only [generate_orders]
    rw [totalBuyNotional_append]
    rw [totalBuyNotional_of_no_buys _ hsell]
    linarith

/-- C3 witness: the theorem applied at a concrete call (one pick, one
target, one quote, empty holdings, cash 100000). -/
theorem C3_generate_orders_buy_invariants_witness :
    (0 : ℚ) ≤ 100000 ∧
      ((∀ o ∈ generate_orders ⟨5, 20, 2000⟩ "2025-01-06" [⟨"000001.SZ", 1⟩]
            [⟨"000001.SZ", 1/2⟩] [] 100000 200000
            [⟨"000001.SZ", some 10, some 11, some 11, some 9⟩] "R1",
          o.side = "BUY" → 0 < o.qty ∧ (100 : ℤ) ∣ o.qty) ∧
        totalBuyNotional (generate_orders ⟨5, 20, 2000⟩ "2025-01-06"
            [⟨"000001.SZ", 1⟩] [⟨"000001.SZ", 1/2⟩] [] 100000 200000
            [⟨"000001.SZ", some 10, some 11, some 11, some 9⟩] "R1") ≤ 100000) :=
  ⟨by decide,
    C3_generate_orders_buy_invariants ⟨5, 20, 2000⟩ "2025-01-06"
      [⟨"000001.SZ", 1⟩] [⟨"000001.SZ", 1/2⟩] [] 100000 200000
      [⟨"000001.SZ", some 10, some 11, some 11, some 9⟩] "R1" (by decide)⟩

theorem length_filter_add_le {α : Type} (p q r : α → Bool) (l : List α)
    (hpr : ∀ x, p x = true → r x = true) (hqr : ∀ x, q x = true → r x = true)
    (hpq : ∀ x, ¬ (p x = true ∧ q x = true)) :
    (l.filter p).length + (l.filter q).length ≤ (l.filter r).length := by
  induction l with
  | nil => simp
  | cons x xs ih =>
    by_cases hp : p x = true
    · have hq : ¬ q x = true := fun hq => hpq x ⟨hp, hq⟩
      rw [List.filter_cons_of_pos hp, List.filter_cons_of_neg hq,
        List.filter_cons_of_pos (hpr x hp)]
      simp only [List.length_cons]
      omega
    · by_cases hq : q x = true
      · rw [List.filter_cons_of_neg hp, List.filter_cons_of_pos hq,
          List.filter_cons_of_pos (hqr x hq)]
        simp only [List.length_cons]
        omega
      · rw [List.filter_cons_of_neg hp, List.filter_cons_of_neg hq]
        by_cases hr : r x = true
        · rw [List.filter_cons_of_pos hr]
          simp only [List.length_cons]
          omega
        · rw [List.filter_cons_of_neg hr]
          exact ih

theorem filter_take_succ_le (s : List ℚ) (j : ℕ) (hj : j < s.length) :
    ((s.take j).filter (fun a => a = s.getD j 0)).length + 1 ≤
      (s.filter (fun a => a = s.getD j 0)).length := by
  obtain ⟨x, hx⟩ : ∃ x, s.getD j 0 = x := ⟨_, rfl⟩
  rw [hx]
  have hjx : s[j] = x := (List.getD_eq_getElem s 0 hj).symm.trans hx
  have hsplit : s.filter (fun a => decide (a = x)) =
      (s.take j).filter (fun a => decide (a = x)) ++
        (s.drop j).filter (fun a => decide (a = x)) := by
    rw [← List.filter_append, List.take_append_drop]
  rw [hsplit, List.length_append]
  have hdrop : s.drop j = s[j] :: s.drop (j + 1) := List.drop_eq_getElem_cons hj
  rw [hdrop]
  rw [List.filter_cons_of_pos (by simp [hjx])]
  simp only [List.length_cons]
  omega

/-- With descending `method="first"` ranking, a strictly larger score gets a
strictly smaller (better) rank, regardless of positions. -/
theorem rankFirstDesc_lt_of_gt (s : List ℚ) (i j : ℕ) (hi : i < s.length)
    (hj : j < s.length) (h : s.getD i 0 < s.getD j 0) :
    rankFirstDesc s j < rankFirstDesc s i := by
  have hA : (s.filter (fun a => decide (s.getD j 0 < a))).length +
      (s.filter (fun a => decide (a = s.getD j 0))).length ≤
      (s.filter (fun a => decide (s.getD i 0 < a))).length := by
    apply length_filter_add_le
    · intro x hx
      simp only [decide_eq_true_eq] at hx ⊢
      exact lt_trans h hx
    · intro x hx
      simp only [decide_eq_true_eq] at hx ⊢
      exact hx ▸ h
    · intro x hx
      rcases hx with ⟨h1, h2⟩
      simp only [decide_eq_true_eq] at h1 h2
      subst h2
      exact lt_irrefl _ h1
  have hB := filter_take_succ_le s j hj
  unfold rankFirstDesc
  omega

theorem composedScore_of_veto (cfg : ComposeCfg) (r : CandRow) (e : EnsRow)
    (h : vetoedB cfg e = true) : composedScore cfg r e = sentinel := by
  unfold composedScore
  simp only [h, if_true]
  split <;> rfl

/-- C1 counterexample: two candidates, both with rule score 10; candidate 0
is vetoed (severity 3 ≥ 3, probability 0.5 > 0.3), candidate 1 is not
vetoed (action PASS) but sits outside the universe, so the re-enforced
universe rule drives its final score to the same `-1e9` sentinel; the
`method="first"` tie-break then ranks the *vetoed* candidate 0 ahead of
(rank 1 < rank 2) the non-vetoed candidate 1 — contradicting "final rank
places it after every non-vetoed candidate". -/
theorem C1_counterexample :
    (compose_scores
        [⟨"000001.SZ", some 10, 1⟩, ⟨"000002.SZ", some 10, 0⟩]
        (some [⟨none, some (1/2), some 3, none, none⟩,
               ⟨none, some 0, some 1, none, none⟩])
        defaultComposeCfg).getD 0 dfltComposed =
      { ts_code := "000001.SZ", final_score := sentinel,
        risk_gate_action := "VETO", rank_final := 1 } ∧
    (compose_scores
        [⟨"000001.SZ", some 10, 1⟩, ⟨"000002.SZ", some 10, 0⟩]
        (some [⟨none, some (1/2), some 3, none, none⟩,
               ⟨none, some 0, some 1, none, none⟩])
        defaultComposeCfg).getD 1 dfltComposed =
      { ts_code := "000002.SZ", final_score := sentinel,
        risk_gate_action := "PASS", rank_final := 2 } := by
  constructor <;>
    norm_num [compose_scores, composeWithEns, composedScore, gateAction,
      vetoedB, attachedAlpha, attachedProb, attachedSev, defaultComposeCfg,
      sentinel, clamp, qmin, qmax, rankFirstDesc, List.zip, List.zipWith,
      List.enum, List.enumFrom, List.filter, dfltComposed]

/-- C1 (amended): for every candidate frame with an aligned non-empty
ensemble frame, a candidate on the veto mask (severity ≥ threshold AND
probability > threshold) gets `final_score = -1e9` (the sentinel) and
`risk_gate_action = "VETO"`, in shadow and rerank mode alike and regardless
of its ensemble alpha; and its final rank places it after every non-vetoed
candidate *whose final score is strictly above the sentinel* (ties at the
sentinel — e.g. with non-vetoed candidates outside the universe — are
broken by frame position, not in the vetoed candidate's disfavour). -/
theorem C1_veto_amended (rows : List CandRow) (es : List EnsRow)
    (cfg : ComposeCfg) (hlen : es.length = rows.length) (i : ℕ)
    (hi : i < rows.length)
    (hveto : vetoedB cfg (es.getD i dfltEns) = true) :
    ((compose_scores rows (some es) cfg).getD i dfltComposed).final_score = sentinel ∧
    ((compose_scores rows (some es) cfg).getD i dfltComposed).risk_gate_action = "VETO" ∧
    ∀ j, j < rows.length → vetoedB cfg (es.getD j dfltEns) = false →
      sentinel < ((compose_scores rows (some es) cfg).getD j dfltComposed).final_score →
      ((compose_scores rows (some es) cfg).getD j dfltComposed).rank_final <
        ((compose_scores rows (some es) cfg).getD i dfltComposed).rank_final := by
  have hrne : ¬ rows.isEmpty = true := by
    cases rows with
    | nil => exact absurd hi (by simp)
    | cons a l => simp
  have hene : ¬ es.isEmpty = true := by
    intro hempty
    rw [List.isEmpty_iff] at hempty
    subst hempty
    rw [List.length_nil] at hlen
    omega
  have hcs : compose_scores rows (some es) cfg = composeWithEns rows es cfg := by
    unfold compose_scores
    rw [if_neg hrne]
    show (if es.isEmpty = true then composeNoEns rows else composeWithEns rows es cfg) =
      composeWithEns rows es cfg
    rw [if_neg hene]
  have hziplen : (rows.zip es).length = rows.length := by
    rw [List.length_zip, hlen, min_self]
  have hout : ∀ k, k < rows.length →
      (compose_scores rows (some es) cfg).getD k dfltComposed =
        { ts_code := ((rows.zip es).getD k (dfltCand, dfltEns)).1.ts_code
          final_score :=
            ((rows.zip es).map (fun pr => composedScore cfg pr.1 pr.2)).getD k 0
          risk_gate_action := gateAction cfg ((rows.zip es).getD k (dfltCand, dfltEns)).2
          rank_final :=
            rankFirstDesc ((rows.zip es).map (fun pr => composedScore cfg pr.1 pr.2)) k } := by
    intro k hk
    have hkz : k < (rows.zip es).length := by omega
    rw [hcs]
    unfold composeWithEns
    have hk' : k < ((rows.zip es).enum.map (fun ipr =>
        ({ ts_code := ipr.2.1.ts_code
           final_score :=
             ((rows.zip es).map (fun pr => composedScore cfg pr.1 pr.2)).getD ipr.1 0
           risk_gate_action := gateAction cfg ipr.2.2
           rank_final :=
             rankFirstDesc ((rows.zip es).map (fun pr => composedScore cfg pr.1 pr.2)) ipr.1 } : ComposedRow))).length := by
      simpa [hziplen] using hk
    rw [List.getD_eq_getElem _ _ hk']
    rw [List.getElem_map]
    rw [List.getElem_enum]
    rw [← List.getD_eq_getElem (rows.zip es) (dfltCand, dfltEns) hkz]
  have hscore : ∀ k, k < rows.length →
      ((rows.zip es).map (fun pr => composedScore cfg pr.1 pr.2)).getD k 0 =
        composedScore cfg ((rows.zip es).getD k (dfltCand, dfltEns)).1
          ((rows.zip es).getD k (dfltCand, dfltEns)).2 := by
    intro k hk
    have hkz : k < (rows.zip es).length := by omega
    have hk' : k < ((rows.zip es).map (fun pr => composedScore cfg pr.1 pr.2)).length := by
      simpa [hziplen] using hk
    rw [List.getD_eq_getElem _ _ hk']
    rw [List.getElem_map]
    rw [← List.getD_eq_getElem (rows.zip es) (dfltCand, dfltEns) hkz]
  have hes : ∀ k, k < rows.length →
      ((rows.zip es).getD k (dfltCand, dfltEns)).2 = es.getD k dfltEns := by
    intro k hk
    have hkz : k < (rows.zip es).length := by omega
    have hke : k < es.length := by omega
    rw [List.getD_eq_getElem _ _ hkz, List.getD_eq_getElem _ _ hke]
    rw [List.getElem_zip]
  refine ⟨?_, ?_, ?_⟩
  · rw [hout i hi, hscore i hi]
    show composedScore cfg _ _ = sentinel
    exact composedScore_of_veto cfg _ _ (by rw [hes i hi]; exact hveto)
  · rw [hout i hi]
    show gateAction cfg _ = "VETO"
    unfold gateAction
    rw [hes i hi, hveto]
    rfl
  · intro j hj hnv hgt
    rw [hout i hi, hout j hj]
    show rankFirstDesc _ j < rankFirstDesc _ i
    apply rankFirstDesc_lt_of_gt _ i j
    · simpa [hziplen] using hi
    · simpa [hziplen] using hj
    · rw [hscore i hi]
      rw [composedScore_of_veto cfg _ _ (by rw [hes i hi]; exact hveto)]
      rw [hout j hj] at hgt
      simp only [] at hgt
      exact hgt

/-- C1 witness: the amended theorem applied at a concrete frame — candidate
0 is vetoed (severity 3, probability 1 > threshold 0) while candidate 1
(probability 0) is not; candidate 0 keeps the sentinel score, the VETO tag,
and ranks after candidate 1 (whose score 10 is above the sentinel). -/
theorem C1_veto_amended_witness :
    ((compose_scores [⟨"000001.SZ", some 10, 1⟩, ⟨"000002.SZ", some 10, 1⟩]
        (some [⟨none, some 1, some 3, none, none⟩, ⟨none, some 0, some 1, none, none⟩])
        ⟨"shadow", 3, 0, 0⟩).getD 0 dfltComposed).final_score = sentinel ∧
    ((compose_scores [⟨"000001.SZ", some 10, 1⟩, ⟨"000002.SZ", some 10, 1⟩]
        (some [⟨none, some 1, some 3, none, none⟩, ⟨none, some 0, some 1, none, none⟩])
        ⟨"shadow", 3, 0, 0⟩).getD 0 dfltComposed).risk_gate_action = "VETO" ∧
    ∀ j, j < 2 → vetoedB ⟨"shadow", 3, 0, 0⟩
        ([(⟨none, some 1, some 3, none, none⟩ : EnsRow),
          ⟨none, some 0, some 1, none, none⟩].getD j dfltEns) = false →
      sentinel < ((compose_scores [⟨"000001.SZ", some 10, 1⟩, ⟨"000002.SZ", some 10, 1⟩]
          (some [⟨none, some 1, some 3, none, none⟩, ⟨none, some 0, some 1, none, none⟩])
          ⟨"shadow", 3, 0, 0⟩).getD j dfltComposed).final_score →
      ((compose_scores [⟨"000001.SZ", some 10, 1⟩, ⟨"000002.SZ", some 10, 1⟩]
          (some [⟨none, some 1, some 3, none, none⟩, ⟨none, some 0, some 1, none, none⟩])
          ⟨"shadow", 3, 0, 0⟩).getD j dfltComposed).rank_final <
        ((compose_scores [⟨"000001.SZ", some 10, 1⟩, ⟨"000002.SZ", some 10, 1⟩]
          (some [⟨none, some 1, some 3, none, none⟩, ⟨none, some 0, some 1, none, none⟩])
          ⟨"shadow", 3, 0, 0⟩).getD 0 dfltComposed).rank_final :=
  C1_veto_amended
    [⟨"000001.SZ", some 10, 1⟩, ⟨"000002.SZ", some 10, 1⟩]
    [⟨none, some 1, some 3, none, none⟩, ⟨none, some 0, some 1, none, none⟩]
    ⟨"shadow", 3, 0, 0⟩ (by decide) 0 (by decide) (by decide)

/-- A BUY order in the batch breaches the per-order value cap. -/
def ffOrderValueBreach (cfg : FatFingerCfg) (o : Order) : Prop :=
  o.side = "BUY" ∧ orderNotional o > cfg.max_order_value

/-- A BUY order in the batch breaches the per-position fraction cap. -/
def ffPosCapBreach (cfg : FatFingerCfg) (total_assets : ℚ) (o : Order) : Prop :=
  o.side = "BUY" ∧ total_assets > 0 ∧
    orderNotional o / total_assets > cfg.max_pos_per_stock + ffEps

theorem ffLoop_fst_none_iff (cfg : FatFingerCfg) (ta : ℚ) (os : List Order)
    (acc : ℚ) :
    (ffLoop cfg ta os acc).1 = none ↔
      ∀ o ∈ os, ¬ ffOrderValueBreach cfg o ∧ ¬ ffPosCapBreach cfg ta o := by
  induction os generalizing acc with
  | nil => simp [ffLoop]
  | cons o rest ih =>
    by_cases hside : o.side = "BUY"
    · by_cases hv : orderNotional o > cfg.max_order_value
      · simp [ffLoop, hside, hv, ffOrderValueBreach]
      · by_cases hp : ta > 0 ∧ orderNotional o / ta > cfg.max_pos_per_stock + ffEps
        · simp [ffLoop, hside, hv, hp, ffPosCapBreach]
        · simp only [ffLoop, if_pos hside, if_neg hv, if_neg hp, ih,
            List.mem_cons, forall_eq_or_imp]
          constructor
          · intro h
            exact ⟨⟨fun hb => hv hb.2, fun hb => hp ⟨hb.2.1, hb.2.2⟩⟩, h⟩
          · intro h
            exact h.2
    · simp only [ffLoop, if_neg hside, ih, List.mem_cons, forall_eq_or_imp]
      constructor
      · intro h
        exact ⟨⟨fun hb => hside hb.1, fun hb => hside hb.1⟩, h⟩
      · intro h
        exact h.2

theorem ffLoop_snd_of_none (cfg : FatFingerCfg) (ta : ℚ) (os : List Order)
    (acc : ℚ) (h : (ffLoop cfg ta os acc).1 = none) :
    (ffLoop cfg ta os acc).2 = acc + totalBuyNotional os := by
  induction os generalizing acc with
  | nil => simp [ffLoop, totalBuyNotional]
  | cons o rest ih =>
    by_cases hside : o.side = "BUY"
    · by_cases hv : orderNotional o > cfg.max_order_value
      · simp [ffLoop, hside, hv] at h
      · by_cases hp : ta > 0 ∧ orderNotional o / ta > cfg.max_pos_per_stock + ffEps
        · simp [ffLoop, hside, hv, hp] at h
        · have h' : (ffLoop cfg ta rest (acc + orderNotional o)).1 = none := by
            simpa [ffLoop, hside, hv, hp] using h
          have := ih (acc + orderNotional o) h'
          simp only [ffLoop, if_pos hside, if_neg hv, if_neg hp] at *
          rw [this]
          simp [totalBuyNotional, hside, add_assoc]
    · have h' : (ffLoop cfg ta rest acc).1 = none := by
        simpa [ffLoop, hside] using h
      have := ih acc h'
      simp only [ffLoop, if_neg hside] at *
      rw [this]
      simp [totalBuyNotional, hside]

/-- C4 counterexample: a batch consisting of one SELL order whose notional
(100 × 10000 = 1,000,000) exceeds the default per-order cap of 500,000 is
nevertheless accepted by `fat_finger_check` — the per-order notional cap is
only applied to BUY orders, so "rejects whenever some single order's
notional exceeds the per-order cap" is false at this input. -/
theorem C4_counterexample :
    (fat_finger_check
        [{ client_order_id := "20250106_R1_SELLR_000001.SZ"
           ts_code := "000001.SZ"
           side := "SELL"
           qty := 100
           price_type := "LIMIT"
           limit_price := some 10000
           reason := "TARGET_SELL_REBAL"
           risk_tags := "" }] defaultFatFingerCfg 10000000).1 = true ∧
      orderNotional
        { client_order_id := "20250106_R1_SELLR_000001.SZ"
          ts_code := "000001.SZ"
          side := "SELL"
          qty := 100
          price_type := "LIMIT"
          limit_price := some 10000
          reason := "TARGET_SELL_REBAL"
          risk_tags := "" } > defaultFatFingerCfg.max_order_value := by
  constructor
  · norm_num [fat_finger_check, ffLoop, defaultFatFingerCfg, ffEps,
      totalBuyNotional, orderNotional]
    rw [if_neg (by decide : ¬ ("SELL" = "BUY"))]
    norm_num
  · norm_num [orderNotional, defaultFatFingerCfg]

/-- C4 (amended): `fat_finger_check` rejects the whole batch (no partial
acceptance — the result is a single flag) if and only if: the line count
exceeds the configured maximum, OR some single BUY order's notional (at its
limit price, 0 when absent) exceeds the per-order cap, OR — only when
`total_assets > 0` — some single BUY order's notional exceeds the
`max_pos_per_stock + 1e-12` fraction of total assets, OR the aggregate BUY
notional exceeds the `max_daily_turnover + 1e-12` fraction of total assets.
SELL orders are exempt from the notional caps. -/
theorem C4_fat_finger_check_amended (orders : List Order) (cfg : FatFingerCfg)
    (ta : ℚ) :
    (fat_finger_check orders cfg ta).1 = false ↔
      (orders.length > cfg.max_orders ∨
        (∃ o ∈ orders, ffOrderValueBreach cfg o) ∨
        (∃ o ∈ orders, ffPosCapBreach cfg ta o) ∨
        (ta > 0 ∧ totalBuyNotional orders / ta > cfg.max_daily_turnover + ffEps)) := by
  by_cases hlen : orders.length > cfg.max_orders
  · simp [fat_finger_check, hlen]
  · simp only [fat_finger_check, if_neg hlen]
    rcases hloop : ffLoop cfg ta orders 0 with ⟨r, acc⟩
    rcases r with _ | reason
    · have hnone : (ffLoop cfg ta orders 0).1 = none := by rw [hloop]
      have hall := (ffLoop_fst_none_iff cfg ta orders 0).mp hnone
      have hacc := ffLoop_snd_of_none cfg ta orders 0 hnone
      rw [hloop] at hacc
      simp only [zero_add] at hacc
      subst hacc
      by_cases hto : ta > 0 ∧ totalBuyNotional orders / ta > cfg.max_daily_turnover + ffEps
      · simp only [if_pos hto]
        simp [hlen, hto]
      · simp only [if_neg hto]
        constructor
        · intro h
          exact absurd h (by simp)
        · intro h
          rcases h with h | ⟨o, ho, hb⟩ | ⟨o, ho, hb⟩ | h
          · exact absurd h hlen
          · exact absurd hb (hall o ho).1
          · exact absurd hb (hall o ho).2
          · exact absurd h hto
    · have hsome : (ffLoop cfg ta orders 0).1 = some reason := by rw [hloop]
      have : ¬ ∀ o ∈ orders, ¬ ffOrderValueBreach cfg o ∧ ¬ ffPosCapBreach cfg ta o := by
        intro hall
        have := (ffLoop_fst_none_iff cfg ta orders 0).mpr hall
        rw [hsome] at this
        exact Option.some_ne_none _ this
      push_neg at this
      rcases this with ⟨o, ho, hb⟩
      constructor
      · intro _
        by_cases h1 : ffOrderValueBreach cfg o
        · exact Or.inr (Or.inl ⟨o, ho, h1⟩)
        · exact Or.inr (Or.inr (Or.inl ⟨o, ho, hb h1⟩))
      · intro _
        rfl

end QuantSys
